import Mathlib

/-!
# Verification of the SF-Bench evaluation engine

Shallow embedding of the core of the SF-Bench repository
(`sfbench/validators/functional_validator.py`, `sfbench/utils/schema.py`,
`sfbench/runners/base_runner.py`, `sfbench/utils/retry.py`,
`sfbench/utils/git.py`, `sfbench/utils/sfdx.py`,
`sfbench/utils/checkpoint.py`) together with theorems settling the
frozen specification claims.

Python floats that only ever hold small integral values (the rubric
weights 10/20/50/10/10 and their sums) are embedded as `Nat`: every
value occurring is exactly representable, and addition on them is exact.
Python exceptions are embedded as an explicit error type `Exc` together
with `Except`-valued functions; `try`/`except` dispatch on exception
classes becomes a `match` that mirrors the class hierarchy of the source.
-/

namespace SFBench

/-- `sfbench/utils/scoring.py`, `class TestStatus(Enum)`:
the four task statuses `PASS, FAIL, TIMEOUT, ERROR`. -/
inductive TestStatus where
  | pass
  | fail
  | timeout
  | error
deriving DecidableEq, Repr

/-- `sfbench/utils/scoring.py`, `class TestResult` (fields relevant to the
runner lifecycle: the task id, the status, and the optional error message;
`duration` and the log/metric fields are wall-clock metadata with no
control-flow role and are not tracked). -/
structure TestResult where
  task_id : String
  status : TestStatus
  error_message : Option String := none
deriving DecidableEq, Repr

/-! ## Strings and JSON values

The embedded Python string operations are written by structural recursion
on the character list so the kernel can evaluate them (`String.splitOn`,
`String.map` and `String.trim` in core recurse on byte positions with
termination proofs the kernel cannot unfold). -/

/-- Does the first list start with the second?  (Helper for `pyIn`.) -/
def startsWithList : List Char → List Char → Bool
  | [], _ => true
  | _ :: _, [] => false
  | a :: as, b :: bs => a = b && startsWithList as bs

/-- Occurrence of `needle` anywhere in the list (helper for `pyIn`). -/
def containsList (needle : List Char) : List Char → Bool
  | [] => needle.isEmpty
  | c :: rest => startsWithList needle (c :: rest) || containsList needle rest

/-- Python's `needle in hay` on strings (the empty needle is in every
string). -/
def pyIn (needle hay : String) : Bool := containsList needle.data hay.data

/-- Python `str.lower()` (ASCII, which covers the embedded inputs). -/
def pyLower (s : String) : String := String.mk (s.data.map Char.toLower)

/-- A JSON value as produced by Python's `json.loads`. -/
inductive JsonVal where
  | null
  | bool (b : Bool)
  | num (n : Int)
  | str (s : String)
  | arr (xs : List JsonVal)
  | obj (fields : List (String × JsonVal))

/-- Python `dict.get(key)` on a parsed JSON object.  `json.loads` builds
the dict in key order with later duplicates overwriting earlier ones,
hence the reversed search. -/
def jget (fields : List (String × JsonVal)) (key : String) : Option JsonVal :=
  (fields.reverse.find? (fun p => p.1 = key)).map (·.2)

/-- Python truthiness of a JSON-derived value. -/
def jsonTruthy : JsonVal → Bool
  | .null => false
  | .bool b => b
  | .num n => n ≠ 0
  | .str s => s ≠ ""
  | .arr xs => !xs.isEmpty
  | .obj fs => !fs.isEmpty

/-- `value == 0` on a `dict.get` result (Python `data.get('status') == 0`:
only the integer `0` — or `False`, which does not occur in CLI JSON —
compares equal to `0`). -/
def statusIsZero : Option JsonVal → Bool
  | some (.num 0) => true
  | _ => false

mutual
/-- Python `repr` of a JSON-derived value (used only through `pyStr` for
`str(...)` coercions inside error messages). -/
def pyReprVal : JsonVal → String
  | .null => "None"
  | .bool true => "True"
  | .bool false => "False"
  | .num n => toString n
  | .str s => "'" ++ s ++ "'"
  | .arr xs => "[" ++ String.intercalate ", " (pyReprList xs) ++ "]"
  | .obj fs => "\x7b" ++ String.intercalate ", " (pyReprFields fs) ++ "\x7d"
def pyReprList : List JsonVal → List String
  | [] => []
  | x :: xs => pyReprVal x :: pyReprList xs
def pyReprFields : List (String × JsonVal) → List String
  | [] => []
  | (k, v) :: fs => ("'" ++ k ++ "': " ++ pyReprVal v) :: pyReprFields fs
end

/-- Python `str(...)` of a JSON-derived value. -/
def pyStr : JsonVal → String
  | .str s => s
  | v => pyReprVal v

/-- The standard output of a CLI subprocess, as `run_sfdx` consumes it:
empty, non-empty but with no parseable JSON object (no line starting
with `\x7b`, or `json.loads` fails), or carrying a JSON object parsed
from the first such line onward. -/
inductive Stdout where
  | empty
  | unparseable
  | json (top : List (String × JsonVal))

/-- Is this `Stdout` Python-falsy (the empty string)? -/
def Stdout.isEmptyB : Stdout → Bool
  | .empty => true
  | _ => false

/-- The Python exception classes that flow through the embedded code, with
their messages.  The class hierarchy of the source is:
`PatchApplicationError < GitError < Exception`,
`PlatformLimitationError < OrgCreationError < CommandError < SFDXError <
Exception`, `TimeoutError < SFDXError`, and `ValueError < Exception`.
Constructors keep the payloads the source attaches
(`OrgCreationError(message, exit_code, stderr, stdout)`). -/
inductive Exc where
  | valueError (msg : String)
  | gitError (msg : String)
  | patchApplicationError (msg : String)
  | sfdxError (msg : String)
  | sfdxTimeout (msg : String)
  | codeError (msg : String) (exit_code : Int) (stderr : String)
  | orgCreationError (msg : String) (exit_code : Int) (stderr : String) (stdout : Stdout)
  | platformLimitationError (msg : String) (exit_code : Int) (stderr : String) (stdout : Stdout)
  | runtimeError (msg : String)

/-- The message carried by an exception (Python `str(e)`). -/
def Exc.msg : Exc → String
  | .valueError m => m
  | .gitError m => m
  | .patchApplicationError m => m
  | .sfdxError m => m
  | .sfdxTimeout m => m
  | .codeError m _ _ => m
  | .orgCreationError m _ _ _ => m
  | .platformLimitationError m _ _ _ => m
  | .runtimeError m => m

/-- `isinstance(e, OrgCreationError)`: `PlatformLimitationError` is a
subclass of `OrgCreationError` in `sfbench/utils/sfdx.py`. -/
def Exc.isOrgCreationError : Exc → Bool
  | .orgCreationError _ _ _ _ => true
  | .platformLimitationError _ _ _ _ => true
  | _ => false

/-- `isinstance(e, (TimeoutError, CommandError))` from `run_sfdx`'s outer
handler: `CommandError` covers `CodeError`, `OrgCreationError` and
`PlatformLimitationError`. -/
def Exc.isTimeoutOrCommandError : Exc → Bool
  | .sfdxTimeout _ => true
  | .codeError _ _ _ => true
  | .orgCreationError _ _ _ _ => true
  | .platformLimitationError _ _ _ _ => true
  | _ => false

/-! ## Functional validator scoring
(`sfbench/validators/functional_validator.py`) -/

/-- The five component booleans of `FunctionalValidationResult`
(`deployment_passed`, `unit_tests_passed`, `functional_tests_passed`,
`bulk_tests_passed`, `no_manual_tweaks`), all defaulting to `False`. -/
structure FunctionalBooleans where
  deployment_passed : Bool := false
  unit_tests_passed : Bool := false
  functional_tests_passed : Bool := false
  bulk_tests_passed : Bool := false
  no_manual_tweaks : Bool := false
deriving DecidableEq, Repr

/-- `FunctionalValidationResult.calculate_score`
(`functional_validator.py`, lines 54-79): starts from `0` and adds the
weight of each component whose boolean is set, in source order. -/
def calculate_score (b : FunctionalBooleans) : Nat :=
  let score := 0
  let score := if b.deployment_passed then score + 10 else score
  let score := if b.unit_tests_passed then score + 20 else score
  let score := if b.functional_tests_passed then score + 50 else score
  let score := if b.bulk_tests_passed then score + 10 else score
  let score := if b.no_manual_tweaks then score + 10 else score
  score

/-! ## Validation breakdown and resolution (`sfbench/utils/schema.py`) -/

/-- `schema.py`, `class ComponentStatus(str, Enum)`. -/
inductive ComponentStatus where
  | pass
  | fail
  | error
  | skipped
deriving DecidableEq, Repr

/-- `schema.py`, `class ValidationBreakdown` — the per-component statuses
and points consulted by `is_resolved` and `calculate_total`. -/
structure ValidationBreakdown where
  deployment_status : ComponentStatus := .skipped
  deployment_points : Nat := 0
  unit_test_status : ComponentStatus := .skipped
  unit_test_points : Nat := 0
  functional_status : ComponentStatus := .skipped
  functional_points : Nat := 0
  bulk_status : ComponentStatus := .skipped
  bulk_points : Nat := 0
  no_tweaks_status : ComponentStatus := .skipped
  no_tweaks_points : Nat := 0
deriving DecidableEq, Repr

/-- `ValidationBreakdown.is_resolved` (`schema.py`, lines 100-124):
functional is the gatekeeper, then deployment and unit tests must pass. -/
def ValidationBreakdown.is_resolved (b : ValidationBreakdown) : Bool :=
  if b.functional_status ≠ ComponentStatus.pass then
    false
  else
    b.deployment_status = ComponentStatus.pass ∧
      b.unit_test_status = ComponentStatus.pass

/-! ## Claims C1 and C2 -/

/-- **C1.** After `calculate_score()` the score equals the sum of the
weights of exactly the component booleans that are true — 10 for
deployment, 20 for unit tests, 50 for functional tests, 10 for bulk
tests, 10 for no manual tweaks — and is therefore at most 100. -/
theorem calculate_score_is_weighted_sum (b : FunctionalBooleans) :
    calculate_score b =
      (if b.deployment_passed then 10 else 0) +
      (if b.unit_tests_passed then 20 else 0) +
      (if b.functional_tests_passed then 50 else 0) +
      (if b.bulk_tests_passed then 10 else 0) +
      (if b.no_manual_tweaks then 10 else 0) ∧
    calculate_score b ≤ 100 := by
  obtain ⟨d, u, f, bl, n⟩ := b
  cases d <;> cases u <;> cases f <;> cases bl <;> cases n <;> simp [calculate_score]

/-- **C2.** A validation breakdown is resolved iff the deployment, unit
test and functional components all passed; the bulk and no-tweaks
components (statuses and points) never affect resolution. -/
theorem is_resolved_iff_three_components (b : ValidationBreakdown)
    (bulk : ComponentStatus) (bulkPts : Nat)
    (tweaks : ComponentStatus) (tweaksPts : Nat) :
    (b.is_resolved = true ↔
      b.deployment_status = ComponentStatus.pass ∧
      b.unit_test_status = ComponentStatus.pass ∧
      b.functional_status = ComponentStatus.pass) ∧
    ({ b with bulk_status := bulk, bulk_points := bulkPts,
              no_tweaks_status := tweaks,
              no_tweaks_points := tweaksPts : ValidationBreakdown }.is_resolved
      = b.is_resolved) := by
  constructor
  · unfold ValidationBreakdown.is_resolved
    by_cases hf : b.functional_status = ComponentStatus.pass <;>
      simp [hf]
  · rfl

/-! ## Python string helpers

Embedded by structural recursion on the character list so that the
kernel can evaluate them (`String.trim` in core is defined by
well-founded recursion on byte positions, which the kernel cannot
unfold).  Whitespace is the ASCII whitespace recognised by
`Char.isWhitespace` (space, tab, CR, LF), which covers every character
occurring in the embedded inputs. -/

/-- Python `str.strip()`. -/
def pyStrip (s : String) : String :=
  String.mk
    (((s.data.dropWhile Char.isWhitespace).reverse.dropWhile
        Char.isWhitespace).reverse)

/-- Python `str.rstrip()`. -/
def pyRstrip (s : String) : String :=
  String.mk ((s.data.reverse.dropWhile Char.isWhitespace).reverse)

/-! ## Retry with exponential backoff (`sfbench/utils/retry.py`) -/

/-- The loop body of `retry_with_backoff`'s `wrapper`
(`retry.py`, lines 39-72).  `attempt` is the current loop index,
`remaining` the number of iterations left (`max_retries - attempt`),
`lastExc` the `last_exception` local.  `f k` is the outcome of the `k`-th
call of the wrapped function.  Returns the overall outcome, the number of
calls made, and the list of back-off delays slept (in seconds).
Exceptions not matched by `retryOn` are re-raised without retry. -/
def retryLoop (initialDelay maxDelay expBase : ℚ) (retryOn : Exc → Bool)
    (f : Nat → Except Exc α) :
    Nat → Nat → Option Exc → Except Exc α × Nat × List ℚ
  | _, 0, lastExc =>
      (match lastExc with
        | some e => .error e
        | none => .error (.runtimeError "failed after max_retries attempts"),
       0, [])
  | attempt, remaining + 1, _ =>
      match f attempt with
      | .ok v => (.ok v, 1, [])
      | .error e =>
          if retryOn e then
            if 0 < remaining then
              let delay := min (initialDelay * expBase ^ attempt) maxDelay
              let (res, n, sleeps) :=
                retryLoop initialDelay maxDelay expBase retryOn f
                  (attempt + 1) remaining (some e)
              (res, n + 1, delay :: sleeps)
            else
              let (res, n, sleeps) :=
                retryLoop initialDelay maxDelay expBase retryOn f
                  (attempt + 1) remaining (some e)
              (res, n + 1, sleeps)
          else (.error e, 1, [])

/-- `retry_with_backoff(max_retries, initial_delay, max_delay,
exponential_base, retry_on)` applied to a function whose `k`-th call
has outcome `f k`. -/
def retryWithBackoff (maxRetries : Nat) (initialDelay : ℚ)
    (maxDelay : ℚ) (expBase : ℚ) (retryOn : Exc → Bool)
    (f : Nat → Except Exc α) : Except Exc α × Nat × List ℚ :=
  retryLoop initialDelay maxDelay expBase retryOn f 0 maxRetries none

/-! ## Runner lifecycle (`sfbench/runners/base_runner.py`) -/

/-- `BenchmarkRunner.inject_patch` (`base_runner.py`, lines 90-170).
An empty or whitespace-only patch raises `ValueError("Cannot apply empty
patch")` before any `apply_patch` call.  Otherwise `apply_patch` is run
under `@retry_with_backoff(max_retries=3, initial_delay=1.0,
retry_on=(Exception,))`: every embedded exception is an instance of
`Exception`, so `retryOn` is constantly true.  The inner
`_apply_patch_with_retry` and the outer `try` only log and re-raise, so
they are semantically the retry result itself.  `applyOutcome k` is the
outcome of the `k`-th `apply_patch` subprocess attempt; the returned
numbers are the count of `apply_patch` calls and the slept delays. -/
def injectPatch (patch_diff : String)
    (applyOutcome : Nat → Except Exc Unit) :
    Except Exc Unit × Nat × List ℚ :=
  if patch_diff = "" ∨ pyStrip patch_diff = "" then
    (.error (.valueError "Cannot apply empty patch"), 0, [])
  else
    retryWithBackoff 3 1 60 2 (fun _ => true) applyOutcome

/-- Inputs of one `BenchmarkRunner.run` execution: the outcomes of the
abstract lifecycle steps.  `applyOutcome k` is the outcome of the `k`-th
`apply_patch` attempt inside `inject_patch`. -/
structure RunBehavior where
  task_id : String
  setup : Except Exc Unit
  patch_diff : Option String
  applyOutcome : Nat → Except Exc Unit
  evaluate : Except Exc TestResult
  teardown : Except Exc Unit

/-- What one `run` execution produced: the overall outcome (an `.error`
would mean an exception escaped `run`), how often `teardown()` was
invoked, and how often `apply_patch` was invoked. -/
structure RunOutcome where
  result : Except Exc TestResult
  teardown_calls : Nat
  apply_calls : Nat

/-- The outer `except` clauses of `BenchmarkRunner.run`
(`base_runner.py`, lines 55-75): `PlatformLimitationError` becomes a
FAIL result, any other `Exception` becomes an ERROR result. -/
def handleRunExc (task_id : String) (x : Except Exc TestResult) :
    Except Exc TestResult :=
  match x with
  | .ok r => .ok r
  | .error (.platformLimitationError m _ _ _) =>
      .ok { task_id := task_id, status := .fail,
            error_message := some ("Platform limitation: " ++ m) }
  | .error e =>
      .ok { task_id := task_id, status := .error,
            error_message := some e.msg }

/-- `BenchmarkRunner.run` (`base_runner.py`, lines 24-84).
The `try` body runs `setup`, then — when `patch_diff` is truthy —
`inject_patch` with its local `except PatchApplicationError` converting
to a FAIL result, then `evaluate`.  The outer handlers convert
`PlatformLimitationError` to FAIL and any other `Exception` to ERROR.
The `finally` block invokes `teardown()` exactly once on every path and
swallows its exceptions. -/
def runBench (b : RunBehavior) : RunOutcome :=
  let body : Except Exc TestResult × Nat :=
    match b.setup with
    | .error e => (.error e, 0)
    | .ok _ =>
        let doInject := match b.patch_diff with
          | none => false
          | some s => s ≠ ""
        if doInject then
          let (res, calls, _) := injectPatch (b.patch_diff.getD "") b.applyOutcome
          match res with
          | .error (.patchApplicationError m) =>
              (.ok { task_id := b.task_id, status := .fail,
                     error_message := some ("Patch application failed: " ++ m) },
               calls)
          | .error e => (.error e, calls)
          | .ok _ => (b.evaluate, calls)
        else (b.evaluate, 0)
  let _teardownResult := b.teardown
  { result := handleRunExc b.task_id body.1, teardown_calls := 1,
    apply_calls := body.2 }

/-! ## Claim C3 -/

/-- **C3.** On every execution of `BenchmarkRunner.run`, `teardown()` is
invoked exactly once — whether `evaluate()` returned, or `setup()`,
`inject_patch()` or `evaluate()` raised, or a classified failure was
converted to a result — and `run` returns a `TestResult` whose status is
one of PASS, FAIL, TIMEOUT, ERROR instead of propagating the
exception. -/
theorem runBench_teardown_once_and_total (b : RunBehavior) :
    (runBench b).teardown_calls = 1 ∧
    ∃ r, (runBench b).result = Except.ok r ∧
      (r.status = TestStatus.pass ∨ r.status = TestStatus.fail ∨
       r.status = TestStatus.timeout ∨ r.status = TestStatus.error) := by
  refine ⟨rfl, ?_⟩
  have hstat : ∀ s : TestStatus,
      s = TestStatus.pass ∨ s = TestStatus.fail ∨
      s = TestStatus.timeout ∨ s = TestStatus.error := by
    intro s; cases s <;> simp
  have hexc : ∀ (tid : String) (x : Except Exc TestResult),
      ∃ r, handleRunExc tid x = Except.ok r := by
    intro tid x
    rcases x with e | r
    · cases e <;> exact ⟨_, rfl⟩
    · exact ⟨r, rfl⟩
  obtain ⟨r, hr⟩ := hexc b.task_id
    (match b.setup with
      | .error e => ((.error e : Except Exc TestResult), 0)
      | .ok _ =>
          let doInject := match b.patch_diff with
            | none => false
            | some s => s ≠ ""
          if doInject then
            let (res, calls, _) :=
              injectPatch (b.patch_diff.getD "") b.applyOutcome
            match res with
            | .error (.patchApplicationError m) =>
                (.ok { task_id := b.task_id, status := .fail,
                       error_message :=
                         some ("Patch application failed: " ++ m) },
                 calls)
            | .error e => (.error e, calls)
            | .ok _ => (b.evaluate, calls)
          else (b.evaluate, 0)).1
  exact ⟨r, hr, hstat r.status⟩

/-! ## Claims C4 and C5 -/

/-- **C4, counterexample.** A patch-content failure
(`PatchApplicationError`, as raised when all four apply strategies are
exhausted) IS retried by `inject_patch`: with every `apply_patch`
attempt raising it, `apply_patch` is invoked 3 times with back-off
sleeps of 1 s and 2 s in between, refuting "a patch-content failure is
never retried". -/
theorem injectPatch_retries_patch_content_failures :
    (injectPatch "diff --git a/f b/f"
        (fun _ => Except.error
          (Exc.patchApplicationError "Failed to apply patch after trying 4 strategies"))).2.1
      = 3 ∧
    (injectPatch "diff --git a/f b/f"
        (fun _ => Except.error
          (Exc.patchApplicationError "Failed to apply patch after trying 4 strategies"))).2.2
      = [1, 2] ∧
    (injectPatch "diff --git a/f b/f"
        (fun _ => Except.error
          (Exc.patchApplicationError "Failed to apply patch after trying 4 strategies"))).1
      = Except.error
          (Exc.patchApplicationError "Failed to apply patch after trying 4 strategies") := by
  refine ⟨by decide, ?_, rfl⟩
  simp only [injectPatch, retryWithBackoff]
  rw [if_neg (by decide)]
  norm_num [retryLoop]

/-- **C4, amended.** For a non-empty, non-whitespace patch,
`inject_patch` invokes `apply_patch` at least once and at most 3 times,
with exponential back-off delays `min(1·2^k, 60)` (i.e. 1 s then 2 s)
between consecutive attempts; **every** exception — patch-content
failures included, since the decorator is applied with
`retry_on=(Exception,)` — is retried while attempts remain: the overall
outcome is that of the last attempt, every attempt before the last
raised, and the loop stops early only on success. -/
theorem injectPatch_retry_behavior (p : String)
    (f : Nat → Except Exc Unit) (hp : pyStrip p ≠ "") :
    1 ≤ (injectPatch p f).2.1 ∧ (injectPatch p f).2.1 ≤ 3 ∧
    (injectPatch p f).1 = f ((injectPatch p f).2.1 - 1) ∧
    (injectPatch p f).2.2 =
      (List.range ((injectPatch p f).2.1 - 1)).map
        (fun k => min ((1 : ℚ) * 2 ^ k) 60) ∧
    (∀ k, k + 1 < (injectPatch p f).2.1 → (f k).isOk = false) ∧
    ((injectPatch p f).2.1 < 3 →
      (f ((injectPatch p f).2.1 - 1)).isOk = true) := by
  have hne : ¬(p = "" ∨ pyStrip p = "") := by
    rintro (h | h)
    · exact hp (by rw [h]; rfl)
    · exact hp h
  simp only [injectPatch, if_neg hne, retryWithBackoff]
  rcases h0 : f 0 with e0 | v0
  · rcases h1 : f 1 with e1 | v1
    · rcases h2 : f 2 with e2 | v2 <;>
        · have hval : retryLoop 1 60 2 (fun _ => true) f 0 3 none =
              (f 2, 3,
                (List.range 2).map (fun k => min ((1 : ℚ) * 2 ^ k) 60)) := by
            simp [retryLoop, h0, h1, h2, List.range_succ]
          rw [hval]
          refine ⟨by norm_num, by norm_num, rfl, rfl, ?_, ?_⟩
          · intro k hk
            norm_num at hk
            have hk01 : k = 0 ∨ k = 1 := by omega
            rcases hk01 with rfl | rfl <;>
              simp [h0, h1, Except.isOk, Except.toBool]
          · intro h
            exact absurd h (by norm_num)
    · have hval : retryLoop 1 60 2 (fun _ => true) f 0 3 none =
          (f 1, 2,
            (List.range 1).map (fun k => min ((1 : ℚ) * 2 ^ k) 60)) := by
        simp [retryLoop, h0, h1, List.range_succ]
      rw [hval]
      refine ⟨by norm_num, by norm_num, rfl, rfl, ?_, ?_⟩
      · intro k hk
        norm_num at hk
        have hk0 : k = 0 := by omega
        subst hk0; simp [h0, Except.isOk, Except.toBool]
      · intro _
        simp [h1, Except.isOk, Except.toBool]
  · have hval : retryLoop 1 60 2 (fun _ => true) f 0 3 none =
        (f 0, 1,
          (List.range 0).map (fun k => min ((1 : ℚ) * 2 ^ k) 60)) := by
      simp [retryLoop, h0]
    rw [hval]
    refine ⟨by norm_num, by norm_num, rfl, rfl, ?_, ?_⟩
    · intro k hk
      norm_num at hk
    · intro _
      simp [h0, Except.isOk, Except.toBool]

/-- Witness for `injectPatch_retry_behavior` at the patch `"x"` with all
attempts succeeding. -/
theorem injectPatch_retry_behavior_witness :
    (pyStrip "x" ≠ "") ∧
    (1 ≤ (injectPatch "x" (fun _ => Except.ok ())).2.1 ∧
     (injectPatch "x" (fun _ => Except.ok ())).2.1 ≤ 3 ∧
     (injectPatch "x" (fun _ => Except.ok ())).1 =
       (fun _ => Except.ok ()) ((injectPatch "x" (fun _ => Except.ok ())).2.1 - 1) ∧
     (injectPatch "x" (fun _ => Except.ok ())).2.2 =
       (List.range ((injectPatch "x" (fun _ => Except.ok ())).2.1 - 1)).map
         (fun k => min ((1 : ℚ) * 2 ^ k) 60) ∧
     (∀ k, k + 1 < (injectPatch "x" (fun _ => Except.ok ())).2.1 →
       ((fun _ => Except.ok ()) k : Except Exc Unit).isOk = false) ∧
     ((injectPatch "x" (fun _ => Except.ok ())).2.1 < 3 →
       ((fun _ => Except.ok ())
         ((injectPatch "x" (fun _ => Except.ok ())).2.1 - 1) : Except Exc Unit).isOk = true)) :=
  ⟨by decide, injectPatch_retry_behavior "x" (fun _ => Except.ok ()) (by decide)⟩

/-- **C5.** On a whitespace-only diff, `inject_patch` raises
`ValueError("Cannot apply empty patch")` — not `PatchApplicationError` —
so `run` classifies it through the generic `except Exception` handler as
status **ERROR** (not FAIL as specified), though indeed before any
`apply_patch`/git invocation; and on an empty-string diff the
`if patch_diff:` guard skips injection entirely and the task is
evaluated unpatched. -/
theorem run_whitespace_patch_yields_error_status :
    ((runBench { task_id := "t1"
                 setup := Except.ok ()
                 patch_diff := some " "
                 applyOutcome := fun _ => Except.ok ()
                 evaluate := Except.ok { task_id := "t1", status := .pass }
                 teardown := Except.ok () }).result =
      Except.ok { task_id := "t1", status := .error,
                  error_message := some "Cannot apply empty patch" }) ∧
    ((runBench { task_id := "t1"
                 setup := Except.ok ()
                 patch_diff := some " "
                 applyOutcome := fun _ => Except.ok ()
                 evaluate := Except.ok { task_id := "t1", status := .pass }
                 teardown := Except.ok () }).apply_calls = 0) ∧
    ((runBench { task_id := "t1"
                 setup := Except.ok ()
                 patch_diff := some ""
                 applyOutcome := fun _ => Except.ok ()
                 evaluate := Except.ok { task_id := "t1", status := .pass }
                 teardown := Except.ok () }).result =
      Except.ok { task_id := "t1", status := .pass }) := by
  refine ⟨rfl, by decide, rfl⟩

/-! ## Subprocess gateway (`sfbench/utils/sfdx.py`, `run_sfdx`) -/

/-- Python `str.split('\n')` (structural; `''.split('\n') == ['']`). -/
def splitCharAux (c : Char) : List Char → List Char → List String
  | [], acc => [String.mk acc.reverse]
  | x :: xs, acc =>
      if x = c then String.mk acc.reverse :: splitCharAux c xs []
      else splitCharAux c xs (x :: acc)

/-- Python `s.split('\n')`. -/
def pySplitNL (s : String) : List String := splitCharAux '\n' s.data []

/-- `run_sfdx`, lines 92-120: the JSON-authoritative success check,
returning the pair `(json_success, exit_code)`.  It runs for every
non-empty stdout — the `should_parse_json` flag computed on line 89 is
never read.  A truthy non-numeric JSON `status` would make the Python
`exit_code` a non-integer used only in `!= 0` comparisons and error
payloads; it is embedded as the nonzero sentinel `1`. -/
def jsonCheck (exitCode0 : Int) : Stdout → Bool × Int
  | .json d =>
      let json_status := jget d "status"
      let has_result := (jget d "result").isSome
      if statusIsZero json_status || has_result then
        (true, 0)
      else
        match json_status with
        | some v =>
            if jsonTruthy v then (false, match v with | .num s => s | _ => 1)
            else (false, exitCode0)
        | none => (false, exitCode0)
  | _ => (false, exitCode0)

/-- `'org create' in command.lower() or 'scratch' in command.lower()`
(`sfdx.py`, lines 139 and 158). -/
def isOrgCommand (command : String) : Bool :=
  pyIn "org create" (pyLower command) || pyIn "scratch" (pyLower command)

/-- `run_sfdx`, lines 139-154: the last-chance JSON re-check performed for
org/scratch commands on a non-empty stdout, which repeats the JSON
success test and otherwise keeps the current `(json_success, exit_code)`
pair `jc`. -/
def lastChanceCheck (isOrg : Bool) (jc : Bool × Int) : Stdout → Bool × Int
  | .json d =>
      if isOrg && !(Stdout.json d).isEmptyB then
        if statusIsZero (jget d "status") || (jget d "result").isSome then
          (true, 0)
        else jc
      else jc
  | s => if isOrg && !s.isEmptyB then jc else jc

/-- `run_sfdx`, lines 122-133: drop stderr lines that carry the CLI
update warning or are blank, re-join and strip.  (The subsequent
`if not stderr_clean ...: stderr_clean = ""` re-assigns the empty string
and has no effect.) -/
def stderrClean (stderr : String) : String :=
  let warn := "Warning: @salesforce/cli update available"
  let stderr_lines := if stderr = "" then [] else pySplitNL stderr
  pyStrip (String.intercalate "\n"
    (stderr_lines.filter (fun l => !(pyIn warn l) && pyStrip l != "")))

/-- `run_sfdx` (`sfdx.py`, lines 52-195), with the subprocess replaced by
its observables: `timedOut`, the process exit code `exitCode0`, `stdout`
(abstracted to its JSON content) and `stderr`.  The timeout message of
the source also interpolates the numeric timeout, which changes no
control flow. -/
def runSfdx (command : String) (json_output : Bool) (timedOut : Bool)
    (exitCode0 : Int) (stdout : Stdout) (stderr : String) :
    Except Exc (Int × Stdout × String) :=
  let will_have_json := json_output && !(pyIn "--json" command)
  let command := if will_have_json then command ++ " --json" else command
  if timedOut then
    .error (.sfdxTimeout ("Command timed out after timeout seconds: " ++ command))
  else
    let jc := jsonCheck exitCode0 stdout
    let stderr_clean := stderrClean stderr
    if jc.2 != 0 && !jc.1 then
      let isOrg := isOrgCommand command
      let lastChance := lastChanceCheck isOrg jc stdout
      if lastChance.2 != 0 && !lastChance.1 then
        if isOrg then
          let base_msg :=
            if stderr_clean != "" then stderr_clean
            else "Unknown error during org creation"
          let error_msg :=
            match stdout with
            | .json d =>
                match jget d "message" with
                | some v => pyStr v
                | none =>
                    match jget d "error" with
                    | some v => pyStr v
                    | none => base_msg
            | _ => base_msg
          .error (.orgCreationError ("Org creation failed: " ++ error_msg)
                    lastChance.2
                    (if stderr_clean != "" then stderr_clean else stderr)
                    stdout)
        else
          -- no clause raises for a non-org failure: control falls through
          -- to `return exit_code, stdout, stderr`
          .ok (lastChance.2, stdout, stderr)
      else
        -- the source's `else: raise CodeError(...)` is attached to the inner
        -- `if exit_code != 0 and not json_success` re-test (line 157), so it
        -- runs only when the last-chance re-check flipped the flags — which
        -- recomputes the very same predicate, making this branch unreachable
        .error (.codeError
                  ("Command failed: " ++
                    (if stderr_clean != "" then stderr_clean else stderr))
                  lastChance.2
                  (if stderr_clean != "" then stderr_clean else stderr))
    else
      .ok (jc.2, stdout, stderr)

/-- The source's JSON-authoritative success test on stdout: a JSON object
whose top-level `status` equals 0 or which contains a `result` field. -/
def jsonShowsSuccess : Stdout → Bool
  | .json d => statusIsZero (jget d "status") || (jget d "result").isSome
  | _ => false

/-- stdout carries a JSON object whose `status` field is truthy — when the
success test fails, `run_sfdx` copies such a status over the process exit
code. -/
def jsonStatusTruthy : Stdout → Bool
  | .json d =>
      match jget d "status" with
      | some v => jsonTruthy v
      | none => false
  | _ => false

/-- The first component of `jsonCheck` is exactly the JSON-authoritative
success test. -/
theorem jsonCheck_fst (ec : Int) (s : Stdout) :
    (jsonCheck ec s).1 = jsonShowsSuccess s := by
  cases s with
  | empty => rfl
  | unparseable => rfl
  | json d =>
      unfold jsonCheck jsonShowsSuccess
      by_cases h : (statusIsZero (jget d "status") ||
          (jget d "result").isSome) = true
      · simp [h]
      · simp only [Bool.not_eq_true] at h
        simp only [h, Bool.false_eq_true, if_false]
        rcases jget d "status" with _ | v
        · rfl
        · by_cases ht : jsonTruthy v = true <;> simp [ht]

/-- The exit code computed by `jsonCheck` is zero iff stdout shows JSON
success, or the process exit code was zero and no truthy JSON `status`
overrode it. -/
theorem jsonCheck_snd_zero_iff (ec : Int) (s : Stdout) :
    (jsonCheck ec s).2 = 0 ↔
      (jsonShowsSuccess s = true ∨ (ec = 0 ∧ jsonStatusTruthy s = false)) := by
  cases s with
  | empty =>
      constructor
      · intro h; exact Or.inr ⟨h, rfl⟩
      · rintro (h | ⟨h, _⟩)
        · exact absurd h (by decide)
        · exact h
  | unparseable =>
      constructor
      · intro h; exact Or.inr ⟨h, rfl⟩
      · rintro (h | ⟨h, _⟩)
        · exact absurd h (by decide)
        · exact h
  | json d =>
      unfold jsonCheck jsonShowsSuccess jsonStatusTruthy
      by_cases h : (statusIsZero (jget d "status") ||
          (jget d "result").isSome) = true
      · simp [h]
      · simp only [Bool.not_eq_true] at h
        simp only [h, Bool.false_eq_true, if_false]
        rcases hst : jget d "status" with _ | v
        · simp
        · by_cases ht : jsonTruthy v = true
          · simp only [ht, if_true]
            cases v with
            | num n =>
                have hn : n ≠ 0 := by
                  simpa [jsonTruthy] using ht
                simp [hn, ht]
            | null => simp [jsonTruthy] at ht
            | bool b =>
                cases b with
                | false => simp [jsonTruthy] at ht
                | true => simp [ht]
            | str st => simp [ht]
            | arr xs => simp [ht]
            | obj fs => simp [ht]
          · simp only [Bool.not_eq_true] at ht
            simp [ht]

/-- The success predicate claim C6 asserts, following the spec's words
(for comparison with `runSfdx` only): succeeded iff the process exit code
is 0, or — when the command is expected to emit JSON (`wantJSON=true` or
`--json` already present) — stdout contains a JSON object whose top-level
`status` equals 0 or which contains a `result` field. -/
def specRunSfdxSuccess (command : String) (json_output : Bool)
    (exitCode0 : Int) (stdout : Stdout) : Bool :=
  (exitCode0 == 0) ||
    ((json_output || pyIn "--json" command) && jsonShowsSuccess stdout)

/-! ## Claim C6 -/

/-- **C6, counterexample.**  The success behaviour of `run_sfdx` differs
from the claimed predicate in both directions: (1) for a command not
expected to emit JSON (`wantJSON=false`, no `--json`) with process exit
code 1 and a JSON `result` object on stdout, `run_sfdx` succeeds with
exit code 0 though the claim says it fails; (2) for a JSON command with
process exit code 0 but JSON `status = 5` and no `result`, `run_sfdx`
does not report success (it returns exit code 5) though the claim — whose
conditions hold via the zero process exit code — says it succeeds. -/
theorem runSfdx_differs_from_claimed_success :
    (runSfdx "sf org list" false false 1 (.json [("result", .arr [])]) "" =
      Except.ok (0, .json [("result", .arr [])], "")) ∧
    specRunSfdxSuccess "sf org list" false 1 (.json [("result", .arr [])])
      = false ∧
    (runSfdx "sf data query --json" true false 0
        (.json [("status", .num 5)]) "" =
      Except.ok (5, .json [("status", .num 5)], "")) ∧
    specRunSfdxSuccess "sf data query --json" true 0
      (.json [("status", .num 5)]) = true := by
  refine ⟨rfl, by decide, rfl, by decide⟩

/-- **C6, amended.**  `run_sfdx` (not timing out) reports success —
returns exit code 0 raising no error — iff stdout contains a JSON object
whose top-level `status` equals 0 or which has a `result` field
(**irrespective of `wantJSON` or `--json`**: the JSON check runs on every
non-empty stdout), or the process exit code is 0 and stdout does not
carry a JSON object with a truthy non-zero `status` (which would be
copied over the exit code). -/
theorem runSfdx_success_iff (command : String) (json_output : Bool)
    (exitCode0 : Int) (stdout : Stdout) (stderr : String) :
    runSfdx command json_output false exitCode0 stdout stderr =
        Except.ok (0, stdout, stderr) ↔
      (jsonShowsSuccess stdout = true ∨
        (exitCode0 = 0 ∧ jsonStatusTruthy stdout = false)) := by
  have hfst := jsonCheck_fst exitCode0 stdout
  have hsnd := jsonCheck_snd_zero_iff exitCode0 stdout
  unfold runSfdx
  simp only [Bool.false_eq_true, if_false]
  by_cases hz : ((jsonCheck exitCode0 stdout).2 != 0 &&
      !(jsonCheck exitCode0 stdout).1) = true
  · have h2 : (jsonCheck exitCode0 stdout).2 ≠ 0 := by
      rcases Bool.and_eq_true_iff.mp hz with ⟨ha, _⟩
      exact bne_iff_ne.mp ha
    have h1 : jsonShowsSuccess stdout = false := by
      rcases Bool.and_eq_true_iff.mp hz with ⟨_, hb⟩
      rw [← hfst]
      simpa using hb
    have hlast : ∀ o : Bool,
        lastChanceCheck o (jsonCheck exitCode0 stdout) stdout =
          jsonCheck exitCode0 stdout := by
      intro o
      cases stdout with
      | empty => simp only [lastChanceCheck]; split <;> rfl
      | unparseable => simp only [lastChanceCheck]; split <;> rfl
      | json d =>
          have hss : (statusIsZero (jget d "status") ||
              (jget d "result").isSome) = false := h1
          simp only [lastChanceCheck]
          rw [hss]
          split <;> simp
    rw [if_pos hz]
    rw [hlast]
    rw [if_pos hz]
    constructor
    · intro hok
      exfalso
      by_cases horg : isOrgCommand (if json_output && !(pyIn "--json" command)
          then command ++ " --json" else command) = true
      · rw [if_pos horg] at hok
        exact Except.noConfusion hok
      · rw [if_neg horg] at hok
        have hinj := (Except.ok.injEq _ _).mp hok
        have h20 : (jsonCheck exitCode0 stdout).2 = 0 := by
          have := congrArg Prod.fst hinj
          simpa using this
        exact h2 h20
    · intro hr
      refine absurd (hsnd.mpr ?_) h2
      rcases hr with hs | hec
      · rw [hs] at h1; cases h1
      · exact Or.inr hec
  · rw [if_neg hz]
    have hzf : ((jsonCheck exitCode0 stdout).2 != 0 &&
        !(jsonCheck exitCode0 stdout).1) = false := by
      revert hz
      cases ((jsonCheck exitCode0 stdout).2 != 0 &&
        !(jsonCheck exitCode0 stdout).1) <;> simp
    have h20 : (jsonCheck exitCode0 stdout).2 = 0 := by
      rcases Bool.and_eq_false_iff.mp hzf with ha | hb
      · exact bne_eq_false_iff_eq.mp ha
      · have h1 : (jsonCheck exitCode0 stdout).1 = true := by
          simpa using hb
        exact hsnd.mpr (Or.inl (hfst ▸ h1))
    rw [h20]
    constructor
    · intro _
      exact hsnd.mp h20
    · intro _
      rfl

/-! ## Scratch-org provider (`sfbench/utils/sfdx.py`, `create_scratch_org`) -/

/-- One scratch-org creation attempt's subprocess observables. -/
structure AttemptInput where
  timedOut : Bool := false
  exitCode : Int := 0
  stdout : Stdout := .empty
  stderr : String := ""

/-- The platform-limitation keyword test of `create_scratch_org`
(`sfdx.py`, lines 444-445 and 477-478): the lower-cased error message
contains `"package id"`, `"ancestorversion"`, `"collections"` or
`"ac -"`. -/
def hasPlatformKeyword (error_msg : String) : Bool :=
  let l := pyLower error_msg
  pyIn "package id" l || pyIn "ancestorversion" l ||
    pyIn "collections" l || pyIn "ac -" l

/-- The message of the `PlatformLimitationError` raised by
`create_scratch_org` (`sfdx.py`, lines 457-463 and 480-486; both sites
build the same f-string). -/
def platformLimitationMsg (error_msg : String) : String :=
  "Platform limitation: Flow package dependencies not available. Error: " ++
    error_msg ++
    ". This indicates the AI model generated a solution that requires " ++
    "platform features not available in Developer Edition scratch orgs. " ++
    "This is a model limitation, not a tool issue."

/-- The command built by `create_scratch_org` (`sfdx.py`, lines 399-409);
`defFilePath` is the resolved definition-file path when it exists. -/
def createOrgCmd (orgAlias durationDays : String)
    (defFilePath : Option String) : String :=
  match defFilePath with
  | none =>
      "sf org create scratch --alias " ++ orgAlias ++ " --duration-days " ++
        durationDays ++ " --set-default"
  | some p =>
      "sf org create scratch --alias " ++ orgAlias ++ " --duration-days " ++
        durationDays ++ " --definition-file \"" ++ p ++ "\" --set-default"

/-- What one iteration of `create_scratch_org`'s attempt loop decides:
either the function is done (returns or raises definitively), or the
error is eligible for the `attempt < max_retries - 1` retry test. -/
inductive CreateStepOut where
  | done (r : Except Exc JsonVal)
  | retryable (e : Exc)

/-- `data.get('result', \x7b\x7d)` (`sfdx.py`, lines 427 and 439). -/
def jresultD (d : List (String × JsonVal)) : JsonVal :=
  (jget d "result").getD (.obj [])

/-- `sfdx.py`, line 425: the exception-stdout JSON shows success
(`'result' in data or data.get('status') == 0`). -/
def excStdoutShowsSuccess : Stdout → Bool
  | .json d => (jget d "result").isSome || statusIsZero (jget d "status")
  | _ => false

/-- `sfdx.py`, line 438: the exception-stdout JSON has a `result`. -/
def excStdoutHasResult : Stdout → Bool
  | .json d => (jget d "result").isSome
  | _ => false

/-- `data.get('result', \x7b\x7d)` read out of the exception's stdout. -/
def excStdoutResult : Stdout → JsonVal
  | .json d => jresultD d
  | _ => .obj []

/-- One iteration of `create_scratch_org`'s loop body (`sfdx.py`, lines
396-534), for a single attempt with subprocess observables `inp`:
* the CLI call is `run_sfdx(cmd, timeout=600, cwd=cwd)` (`json_output`
  defaulting to true);
* an `OrgCreationError` from it enters the handler of lines 418-466:
  JSON success in the exception's stdout returns `data.get('result')`;
  the short-CLI-warning case re-reads a `result`; a platform keyword in
  `str(e)` raises `PlatformLimitationError` (re-raised immediately by the
  outer handler, line 521-523); anything else is re-raised and hits the
  outer Org/Timeout retry test;
* a `TimeoutError` hits the same retry test;
* any other exception (e.g. `parse_json_output`'s `SFDXError`) is
  wrapped in a fresh `OrgCreationError` and raised without retry
  (line 534);
* a normal return parses stdout: a `result` field returns it; otherwise
  the `message` (default `"Unknown error"`) selects between a stored
  `PlatformLimitationError` and a stored `OrgCreationError`, both of
  which flow to the retry test of lines 493-518 (`data.get('status', 1)`
  with a non-numeric status is embedded as the sentinel `1`, as in
  `jsonCheck`). -/
def createStep (cmd : String) (inp : AttemptInput) : CreateStepOut :=
  match runSfdx cmd true inp.timedOut inp.exitCode inp.stdout inp.stderr with
  | .ok (_, stdoutR, stderrR) =>
      match stdoutR with
      | .json d =>
          if (jget d "result").isSome then
            .done (.ok (jresultD d))
          else
            let error_msg :=
              match jget d "message" with
              | some v => pyStr v
              | none => "Unknown error"
            if hasPlatformKeyword error_msg then
              .retryable (.platformLimitationError
                (platformLimitationMsg error_msg) 1 stderrR stdoutR)
            else
              .retryable (.orgCreationError
                ("Failed to create scratch org: " ++ error_msg)
                (match jget d "status" with
                  | some (.num s) => s
                  | some _ => 1
                  | none => 1)
                stderrR stdoutR)
      | .empty =>
          .retryable (.orgCreationError
            "Failed to create scratch org: no output received" 1 ""
            Stdout.empty)
      | .unparseable =>
          .done (.error (.orgCreationError
            "Failed to create scratch org: Failed to parse JSON output" 1
            "Failed to parse JSON output" Stdout.empty))
  | .error e =>
      match e with
      | .orgCreationError m _ stderrE stdoutE =>
          if excStdoutShowsSuccess stdoutE then
            .done (.ok (excStdoutResult stdoutE))
          else if (pyIn "Warning: @salesforce/cli update available" m &&
              decide (m.length < 200) && excStdoutHasResult stdoutE) then
            .done (.ok (excStdoutResult stdoutE))
          else if hasPlatformKeyword m then
            .done (.error (.platformLimitationError
              (platformLimitationMsg m) 1 stderrE stdoutE))
          else
            .retryable e
      | .sfdxTimeout _ => .retryable e
      | _ =>
          .done (.error (.orgCreationError
            ("Failed to create scratch org: " ++ e.msg) 1 (e.msg)
            Stdout.empty))

/-- Result of a `create_scratch_org` run: the outcome, the number of CLI
attempts, and the back-off delays slept. -/
structure CreateResult where
  result : Except Exc JsonVal
  calls : Nat
  sleeps : List ℚ

/-- The attempt loop of `create_scratch_org`: `attempt` is the loop
index, `remaining` the iterations left.  A retry-eligible error sleeps
`initial_delay * 2 ^ attempt` while attempts remain (lines 493-497 and
526-531) and is raised once they are exhausted.  (The Python loop always
returns or raises inside an iteration; the `remaining = 0` base case is
the unreachable fall-off-the-end `None`.) -/
def createLoop (cmd : String) (initialDelay : ℚ)
    (attempts : Nat → AttemptInput) : Nat → Nat → CreateResult
  | _, 0 => ⟨.ok .null, 0, []⟩
  | attempt, remaining + 1 =>
      match createStep cmd (attempts attempt) with
      | .done r => ⟨r, 1, []⟩
      | .retryable e =>
          if 0 < remaining then
            let delay := initialDelay * 2 ^ attempt
            let r := createLoop cmd initialDelay attempts (attempt + 1) remaining
            ⟨r.result, r.calls + 1, delay :: r.sleeps⟩
          else
            ⟨.error e, 1, []⟩

/-- `create_scratch_org(alias, duration_days, definition_file,
max_retries=3, initial_delay=2.0)` with each attempt's subprocess
observables supplied by `attempts`.  (The process-wide creation mutex
serialises concurrent callers and is not modelled.) -/
def createScratchOrg (orgAlias durationDays : String)
    (defFilePath : Option String) (attempts : Nat → AttemptInput) :
    CreateResult :=
  createLoop (createOrgCmd orgAlias durationDays defFilePath) 2 attempts 0 3

/-! ## Claim C7 -/

/-- **C7, counterexample.**  A platform-limitation keyword in the error
message does **not** always abort without retry: when the CLI call
returns successfully (JSON `status` 0) but its JSON has no `result` and
a `message` containing `"package id"`, `create_scratch_org` stores a
`PlatformLimitationError` and **retries** — 3 attempts with back-off
sleeps of 2 s and 4 s — raising it only after exhaustion. -/
theorem createScratchOrg_keyword_in_message_is_retried :
    (createScratchOrg "sfb-org" "1" none (fun _ =>
        ⟨false, 0, .json [("status", .num 0),
          ("message", .str "Invalid package id in definition")], ""⟩)).calls
      = 3 ∧
    (createScratchOrg "sfb-org" "1" none (fun _ =>
        ⟨false, 0, .json [("status", .num 0),
          ("message", .str "Invalid package id in definition")], ""⟩)).sleeps
      = [2, 4] ∧
    (createScratchOrg "sfb-org" "1" none (fun _ =>
        ⟨false, 0, .json [("status", .num 0),
          ("message", .str "Invalid package id in definition")], ""⟩)).result
      = .error (.platformLimitationError
          (platformLimitationMsg "Invalid package id in definition") 1 ""
          (.json [("status", .num 0),
            ("message", .str "Invalid package id in definition")])) := by
  refine ⟨by decide, ?_, rfl⟩
  have h : (createScratchOrg "sfb-org" "1" none (fun _ =>
      ⟨false, 0, .json [("status", .num 0),
        ("message", .str "Invalid package id in definition")], ""⟩)).sleeps
      = [(2 : ℚ) * 2 ^ 0, 2 * 2 ^ (0 + 1)] := rfl
  rw [h]
  norm_num

/-- **C7, amended.**  When a scratch-org creation attempt **raises** an
`OrgCreationError` whose message contains a platform keyword (and the
exception's stdout shows no JSON success, and the short-CLI-warning path
does not apply), `create_scratch_org` raises `PlatformLimitationError`
immediately: exactly one CLI call, no back-off sleep; and the runner
converts a `PlatformLimitationError` into task status FAIL, never ERROR.
(When the keyword instead appears in the `message` of a *successful*
call's JSON, the failure is retried and raised only after all attempts —
see the counterexample.) -/
theorem createScratchOrg_platform_exception_no_retry
    (orgAlias dur : String) (defp : Option String)
    (attempts : Nat → AttemptInput)
    (m : String) (ec : Int) (st : String) (so : Stdout)
    (h1 : runSfdx (createOrgCmd orgAlias dur defp) true
        (attempts 0).timedOut (attempts 0).exitCode (attempts 0).stdout
        (attempts 0).stderr = .error (.orgCreationError m ec st so))
    (h2 : excStdoutShowsSuccess so = false)
    (h3 : (pyIn "Warning: @salesforce/cli update available" m &&
        decide (m.length < 200) && excStdoutHasResult so) = false)
    (h4 : hasPlatformKeyword m = true)
    (b : RunBehavior)
    (hb : b.setup =
      .error (.platformLimitationError (platformLimitationMsg m) 1 st so)) :
    createScratchOrg orgAlias dur defp attempts =
      ⟨.error (.platformLimitationError (platformLimitationMsg m) 1 st so),
        1, []⟩ ∧
    (runBench b).result = .ok ⟨b.task_id, .fail,
        some ("Platform limitation: " ++ platformLimitationMsg m)⟩ := by
  constructor
  · unfold createScratchOrg createLoop
    unfold createStep
    rw [h1]
    simp [h2, h3, h4]
  · unfold runBench
    rw [hb]
    rfl

/-- Witness for `createScratchOrg_platform_exception_no_retry`: a
creation attempt failing with exit code 1, empty stdout and stderr
`"Invalid ancestorVersion in definition"` raises an `OrgCreationError`
whose message carries the keyword, and the `PlatformLimitationError` is
immediate. -/
theorem createScratchOrg_platform_exception_no_retry_witness :
    (runSfdx (createOrgCmd "sfb-org" "1" none) true false 1 Stdout.empty
        "Invalid ancestorVersion in definition" =
      .error (.orgCreationError
        "Org creation failed: Invalid ancestorVersion in definition" 1
        "Invalid ancestorVersion in definition" Stdout.empty)) ∧
    (createScratchOrg "sfb-org" "1" none
        (fun _ => ⟨false, 1, Stdout.empty,
          "Invalid ancestorVersion in definition"⟩) =
      ⟨.error (.platformLimitationError
          (platformLimitationMsg
            "Org creation failed: Invalid ancestorVersion in definition") 1
          "Invalid ancestorVersion in definition" Stdout.empty), 1, []⟩ ∧
      (runBench
        { task_id := "t2"
          setup := .error (.platformLimitationError
            (platformLimitationMsg
              "Org creation failed: Invalid ancestorVersion in definition") 1
            "Invalid ancestorVersion in definition" Stdout.empty)
          patch_diff := none
          applyOutcome := fun _ => Except.ok ()
          evaluate := Except.ok ⟨"t2", .pass, none⟩
          teardown := Except.ok () }).result =
        .ok ⟨"t2", .fail, some ("Platform limitation: " ++
          platformLimitationMsg
            "Org creation failed: Invalid ancestorVersion in definition")⟩) :=
  ⟨rfl,
    createScratchOrg_platform_exception_no_retry "sfb-org" "1" none
      (fun _ => ⟨false, 1, Stdout.empty,
        "Invalid ancestorVersion in definition"⟩)
      "Org creation failed: Invalid ancestorVersion in definition" 1
      "Invalid ancestorVersion in definition" Stdout.empty
      rfl rfl (by decide) (by decide) _ rfl⟩

/-! ## Functional validation flows
(`sfbench/validators/functional_validator.py`, `validate_apex` and
`validate_flow`) -/

/-- Status of one executed `ValidationStep` (its `status` field after
`_run_step`/`_run_soql_verification`: `"passed"`, `"failed"` or
`"error"`). -/
inductive StepStatus where
  | passed
  | failed
  | error
deriving DecidableEq, Repr

/-- The `functional_validation` recipe consumed by the validator
(`task_config.get("functional_validation") or \x7b\x7d`); a missing
recipe is the record of `none`s.  `outcome_verifications` keeps each
verification's display name (`verification.get("name", "Verify
Outcome")`); queries and expected values live behind the step oracle. -/
structure FunctionalConfig where
  test_data_script : Option String := none
  verification_query : Option String := none
  bulk_test_script : Option String := none
  flow_name : Option String := none
  trigger_test_script : Option String := none
  outcome_verifications : List String := []
  negative_test_script : Option String := none

/-- The subprocess outcomes feeding a validation run: `step k` is the
status of the `k`-th executed step (in execution order), and
`unitSummaryPassed` tells whether the unit-test step's JSON output
parsed with `summary.outcome == "Passed"` (lines 164-170). -/
structure StepOracle where
  step : Nat → StepStatus
  unitSummaryPassed : Bool := true

/-- `FunctionalValidationResult` as the validator flows build it: the
five scoring booleans (the `FunctionalBooleans` sub-record), the overall
status, the score, and the names of the executed steps. -/
structure FunctionalValidationResult where
  overall_status : String := "pending"
  score : Nat := 0
  deployment_passed : Bool := false
  unit_tests_passed : Bool := false
  functional_tests_passed : Bool := false
  bulk_tests_passed : Bool := false
  no_manual_tweaks : Bool := false
  stepNames : List String := []
deriving DecidableEq, Repr

/-- `result.calculate_score()` on the validator's result record. -/
def FunctionalValidationResult.calcScore
    (r : FunctionalValidationResult) : Nat :=
  calculate_score ⟨r.deployment_passed, r.unit_tests_passed,
    r.functional_tests_passed, r.bulk_tests_passed, r.no_manual_tweaks⟩

/-- The loop over `outcome_verifications` (`validate_flow`, lines
300-313): runs one SOQL verification step per entry starting at oracle
index `k`, and returns (`all_verified`, next index, appended step
names). -/
def runVerifications (o : Nat → StepStatus) :
    List String → Nat → Bool × Nat × List String
  | [], k => (true, k, [])
  | name :: rest, k =>
      let st := o k
      let tail := runVerifications o rest (k + 1)
      ((st == StepStatus.passed) && tail.1, tail.2.1, name :: tail.2.2)

/-- `FunctionalValidator.validate_apex` (`functional_validator.py`,
lines 117-226): deploy (early return on failure), unit tests (passed iff
the step passed and the parsed summary outcome is `"Passed"`), optional
test-data step, optional SOQL verification (otherwise functional :=
unit-test result), optional bulk test (otherwise
`bulk_tests_passed = True`, line 214), then overall status and score. -/
def validateApex (cfg : FunctionalConfig) (o : StepOracle) :
    FunctionalValidationResult :=
  let r : FunctionalValidationResult := {}
  let deployStatus := o.step 0
  let r := { r with stepNames := r.stepNames ++ ["Deploy to Scratch Org"],
                    deployment_passed := deployStatus == StepStatus.passed }
  if !r.deployment_passed then
    let r := { r with overall_status := "failed" }
    { r with score := r.calcScore }
  else
    let testStatus := o.step 1
    let r := { r with stepNames := r.stepNames ++ ["Run Unit Tests"] }
    let r := if testStatus == StepStatus.passed && o.unitSummaryPassed then
        { r with unit_tests_passed := true }
      else r
    let k := 2
    let s1 : Nat × FunctionalValidationResult :=
      if cfg.test_data_script.isSome then
        (k + 1, { r with stepNames := r.stepNames ++ ["Create Test Data"] })
      else (k, r)
    let k := s1.1
    let r := s1.2
    let s2 : Nat × FunctionalValidationResult :=
      match cfg.verification_query with
      | some _ =>
          (k + 1, { r with stepNames := r.stepNames ++ ["Verify Outcome"],
                           functional_tests_passed := o.step k == StepStatus.passed })
      | none => (k, { r with functional_tests_passed := r.unit_tests_passed })
    let k := s2.1
    let r := s2.2
    let s3 : Nat × FunctionalValidationResult :=
      match cfg.bulk_test_script with
      | some _ =>
          (k + 1, { r with
            stepNames := r.stepNames ++ ["Bulk Test (200 records)"],
            bulk_tests_passed := o.step k == StepStatus.passed })
      | none => (k, { r with bulk_tests_passed := true })
    let r := s3.2
    let r :=
      if r.deployment_passed && r.unit_tests_passed &&
          r.functional_tests_passed then
        { r with overall_status := "passed", no_manual_tweaks := true }
      else if r.deployment_passed && r.unit_tests_passed then
        { r with overall_status := "partial" }
      else { r with overall_status := "failed" }
    { r with score := r.calcScore }

/-- `FunctionalValidator.validate_flow` (`functional_validator.py`,
lines 228-347): deploy (early return on failure), optional activation
and trigger steps, the outcome-verification loop (all must pass; an
empty list verifies vacuously), optional bulk test — with **no** `else`
branch: a missing `bulk_test_script` leaves `bulk_tests_passed` at its
`False` default — optional negative test, then overall status (setting
`unit_tests_passed = True` on success, line 342) and score. -/
def validateFlow (cfg : FunctionalConfig) (o : StepOracle) :
    FunctionalValidationResult :=
  let r : FunctionalValidationResult := {}
  let deployStatus := o.step 0
  let r := { r with stepNames := r.stepNames ++ ["Deploy Flow"],
                    deployment_passed := deployStatus == StepStatus.passed }
  if !r.deployment_passed then
    let r := { r with overall_status := "failed" }
    { r with score := r.calcScore }
  else
    let k := 1
    let s1 : Nat × FunctionalValidationResult :=
      if cfg.flow_name.isSome then
        (k + 1, { r with stepNames := r.stepNames ++ ["Activate Flow"] })
      else (k, r)
    let k := s1.1
    let r := s1.2
    let s2 : Nat × FunctionalValidationResult :=
      if cfg.trigger_test_script.isSome then
        (k + 1, { r with stepNames :=
          r.stepNames ++ ["Create Test Record (Trigger Flow)"] })
      else (k, r)
    let k := s2.1
    let r := s2.2
    let v := runVerifications o.step cfg.outcome_verifications k
    let r := { r with stepNames := r.stepNames ++ v.2.2,
                      functional_tests_passed := v.1 }
    let k := v.2.1
    let s3 : Nat × FunctionalValidationResult :=
      match cfg.bulk_test_script with
      | some _ =>
          (k + 1, { r with
            stepNames := r.stepNames ++ ["Bulk Test (200 records)"],
            bulk_tests_passed := o.step k == StepStatus.passed })
      | none => (k, r)
    let k := s3.1
    let r := s3.2
    let s4 : Nat × FunctionalValidationResult :=
      if cfg.negative_test_script.isSome then
        (k + 1, { r with stepNames :=
          r.stepNames ++ ["Negative Test (Should NOT trigger)"] })
      else (k, r)
    let r := s4.2
    let r :=
      if r.deployment_passed && r.functional_tests_passed then
        { r with overall_status := "passed", no_manual_tweaks := true,
                 unit_tests_passed := true }
      else { r with overall_status := "failed" }
    { r with score := r.calcScore }

/-! ## Claim C10 -/

/-- **C10.**  In APEX validation, a configuration with no
`bulk_test_script` gets `bulk_tests_passed = True` without any bulk step
being executed (once validation proceeds past deployment), and a score
of 100 is reachable with no bulk test defined — exhibited by the empty
recipe with every step passing; whereas in FLOW validation a missing
`bulk_test_script` always leaves `bulk_tests_passed` at `False`. -/
theorem apex_bulk_points_free_but_flow_not :
    (∀ (cfg : FunctionalConfig) (o : StepOracle),
      cfg.bulk_test_script = none → o.step 0 = StepStatus.passed →
      (validateApex cfg o).bulk_tests_passed = true ∧
      "Bulk Test (200 records)" ∉ (validateApex cfg o).stepNames) ∧
    ((validateApex {} ⟨fun _ => StepStatus.passed, true⟩).bulk_tests_passed
        = true ∧
      (validateApex {} ⟨fun _ => StepStatus.passed, true⟩).score = 100 ∧
      ({} : FunctionalConfig).bulk_test_script = none) ∧
    (∀ (cfg : FunctionalConfig) (o : StepOracle),
      cfg.bulk_test_script = none →
      (validateFlow cfg o).bulk_tests_passed = false) := by
  refine ⟨?_, ⟨by decide, by decide, rfl⟩, ?_⟩
  · intro cfg o hbulk hdep
    rcases htd : cfg.test_data_script with _ | tds <;>
      rcases hvq : cfg.verification_query with _ | vq <;>
        simp [validateApex, hbulk, hdep, htd, hvq] <;>
        split_ifs <;> simp_all
  · intro cfg o hbulk
    unfold validateFlow
    by_cases hdep : (o.step 0 == StepStatus.passed) = true <;>
      simp [hdep, hbulk] <;> split_ifs <;> simp_all

/-- Witness for `apex_bulk_points_free_but_flow_not` at the empty recipe
(no bulk script) with an all-passing oracle for APEX and an all-failing
oracle for FLOW. -/
theorem apex_bulk_points_free_but_flow_not_witness :
    (({} : FunctionalConfig).bulk_test_script = none ∧
      (fun _ => StepStatus.passed : Nat → StepStatus) 0
        = StepStatus.passed) ∧
    ((validateApex {} ⟨fun _ => StepStatus.passed, true⟩).bulk_tests_passed
        = true ∧
      "Bulk Test (200 records)" ∉
        (validateApex {} ⟨fun _ => StepStatus.passed, true⟩).stepNames) ∧
    (validateFlow {} ⟨fun _ => StepStatus.failed, true⟩).bulk_tests_passed
        = false :=
  ⟨⟨rfl, rfl⟩,
    apex_bulk_points_free_but_flow_not.1 {}
      ⟨fun _ => StepStatus.passed, true⟩ rfl rfl,
    apex_bulk_points_free_but_flow_not.2.2 {}
      ⟨fun _ => StepStatus.failed, true⟩ rfl⟩

/-! ## SHA-256 (`hashlib.sha256(...).hexdigest()`)

A bit-faithful executable SHA-256 over byte lists, `Nat`-based with
explicit `% 2^32`, so the kernel can evaluate concrete digests.
Checked against the FIPS 180-4 test vectors. -/

/-- `2^32`. -/
def M32 : Nat := 4294967296

/-- 32-bit modular addition. -/
def add32 (a b : Nat) : Nat := (a + b) % M32

/-- 32-bit right rotation. -/
def rotr32 (x n : Nat) : Nat := ((x >>> n) ||| (x <<< (32 - n))) % M32

/-- The 64 SHA-256 round constants. -/
def sha256K : List Nat :=
  [1116352408, 1899447441, 3049323471, 3921009573, 961987163,
   1508970993, 2453635748, 2870763221, 3624381080, 310598401, 607225278,
   1426881987, 1925078388, 2162078206, 2614888103, 3248222580,
   3835390401, 4022224774, 264347078, 604807628, 770255983, 1249150122,
   1555081692, 1996064986, 2554220882, 2821834349, 2952996808,
   3210313671, 3336571891, 3584528711, 113926993, 338241895, 666307205,
   773529912, 1294757372, 1396182291, 1695183700, 1986661051,
   2177026350, 2456956037, 2730485921, 2820302411, 3259730800,
   3345764771, 3516065817, 3600352804, 4094571909, 275423344, 430227734,
   506948616, 659060556, 883997877, 958139571, 1322822218, 1537002063,
   1747873779, 1955562222, 2024104815, 2227730452, 2361852424,
   2428436474, 2756734187, 3204031479, 3329325298]

/-- Big-endian bytes of the 64-bit message bit length. -/
def lenBytes (bits : Nat) : List Nat :=
  [(bits >>> 56) % 256, (bits >>> 48) % 256, (bits >>> 40) % 256,
   (bits >>> 32) % 256, (bits >>> 24) % 256, (bits >>> 16) % 256,
   (bits >>> 8) % 256, bits % 256]

/-- SHA-256 padding: `0x80`, zeros to 56 mod 64, 8-byte length. -/
def padMsg (msg : List Nat) : List Nat :=
  let l := msg.length
  msg ++ [0x80] ++ List.replicate ((119 - (l % 64)) % 64) 0 ++
    lenBytes (8 * l)

/-- Big-endian 32-bit words of a byte list. -/
def toWords : List Nat → List Nat
  | b0 :: b1 :: b2 :: b3 :: rest =>
      (b0 <<< 24 ||| b1 <<< 16 ||| b2 <<< 8 ||| b3) :: toWords rest
  | _ => []

/-- Message-schedule extension: after `i` steps the 16 block words have
grown to `16 + i`. -/
def schedule (ws : List Nat) : Nat → List Nat
  | 0 => ws
  | j + 1 =>
      let ws := schedule ws j
      let n := ws.length
      let w15 := ws.getD (n - 15) 0
      let w2 := ws.getD (n - 2) 0
      let w16 := ws.getD (n - 16) 0
      let w7 := ws.getD (n - 7) 0
      let s0 := Nat.xor (Nat.xor (rotr32 w15 7) (rotr32 w15 18)) (w15 >>> 3)
      let s1 := Nat.xor (Nat.xor (rotr32 w2 17) (rotr32 w2 19)) (w2 >>> 10)
      ws ++ [add32 (add32 w16 s0) (add32 w7 s1)]

/-- One SHA-256 compression round on the state `[a,b,c,d,e,f,g,h]`. -/
def compressRound (st : List Nat) (k w : Nat) : List Nat :=
  match st with
  | [a, b, c, d, e, f, g, h] =>
      let S1 := Nat.xor (Nat.xor (rotr32 e 6) (rotr32 e 11)) (rotr32 e 25)
      let ch := Nat.xor (Nat.land e f) (Nat.land ((M32 - 1) - e) g)
      let temp1 := add32 (add32 (add32 h S1) (add32 ch k)) w
      let S0 := Nat.xor (Nat.xor (rotr32 a 2) (rotr32 a 13)) (rotr32 a 22)
      let maj := Nat.xor (Nat.xor (Nat.land a b) (Nat.land a c)) (Nat.land b c)
      let temp2 := add32 S0 maj
      [add32 temp1 temp2, a, b, c, add32 d temp1, e, f, g]
  | st => st

/-- Compress one 64-byte block into the running hash state. -/
def compressBlock (hs : List Nat) (block : List Nat) : List Nat :=
  let ws := schedule (toWords block) 48
  let final := (ws.zip sha256K).foldl
    (fun st (p : Nat × Nat) => compressRound st p.2 p.1) hs
  (hs.zip final).map (fun p => add32 p.1 p.2)

/-- Fuel-indexed 64-byte block splitter (structural, kernel-friendly). -/
def splitBlocksGo : Nat → List Nat → List (List Nat)
  | 0, _ => []
  | _, [] => []
  | fuel + 1, bs => bs.take 64 :: splitBlocksGo fuel (bs.drop 64)

/-- Split a padded message into 64-byte blocks. -/
def splitBlocks (bs : List Nat) : List (List Nat) :=
  splitBlocksGo bs.length bs

/-- The eight 32-bit words of the SHA-256 digest of a byte list. -/
def sha256Words (msg : List Nat) : List Nat :=
  (splitBlocks (padMsg msg)).foldl compressBlock
    [1779033703, 3144134277, 1013904242, 2773480762, 1359893119,
     2600822924, 528734635, 1541459225]

/-- Lower-case hex digit. -/
def hexDigit (n : Nat) : Char :=
  if n < 10 then Char.ofNat (48 + n) else Char.ofNat (87 + n)

/-- Hex rendering of one 32-bit word. -/
def wordHex (w : Nat) : List Char :=
  [hexDigit ((w >>> 28) % 16), hexDigit ((w >>> 24) % 16),
   hexDigit ((w >>> 20) % 16), hexDigit ((w >>> 16) % 16),
   hexDigit ((w >>> 12) % 16), hexDigit ((w >>> 8) % 16),
   hexDigit ((w >>> 4) % 16), hexDigit (w % 16)]

/-- `hashlib.sha256(s.encode()).hexdigest()` for ASCII `s` (every string
the checkpoint manager hashes here is ASCII, so `encode()` is the
identity on code points). -/
def sha256hex (s : String) : String :=
  String.mk (((sha256Words (s.data.map Char.toNat)).map wordHex).flatten)

/-- FIPS 180-4 test vector: SHA-256 of `"abc"`. -/
theorem sha256hex_abc :
    sha256hex "abc" =
      "ba7816bf8f01cfea414140de5dae2223b00361a396177a9cb410ff61f20015ad" := by
  decide

/-! ## Canonical JSON serialization
(`json.dumps(..., indent=2, sort_keys=True)`) -/

/-- `n` spaces. -/
def spacesN (n : Nat) : String := String.mk (List.replicate n ' ')

/-- Code-point lexicographic order on strings (Python's `sorted` on
`str`). -/
def keyLt : List Char → List Char → Bool
  | [], [] => false
  | [], _ :: _ => true
  | _ :: _, [] => false
  | a :: as, b :: bs =>
      if a < b then true else if b < a then false else keyLt as bs

/-- Insertion step of the key sort. -/
def insertByKey (p : String × String) :
    List (String × String) → List (String × String)
  | [] => [p]
  | q :: qs =>
      if keyLt q.1.data p.1.data then q :: insertByKey p qs else p :: q :: qs

/-- Insertion sort of rendered object fields by key (`sort_keys=True`). -/
def sortByKey : List (String × String) → List (String × String)
  | [] => []
  | p :: ps => insertByKey p (sortByKey ps)

mutual
/-- `json.dumps(v, indent=2, sort_keys=True)` rendered at indentation
level `lvl`: objects and arrays break across lines with 2-space
indentation, empty containers render inline, object keys are sorted.
(The embedded strings contain no characters needing JSON escaping.) -/
def dumpsVal (lvl : Nat) : JsonVal → String
  | .null => "null"
  | .bool true => "true"
  | .bool false => "false"
  | .num n => toString n
  | .str s => "\"" ++ s ++ "\""
  | .arr [] => "[]"
  | .arr (x :: xs) =>
      "[\n" ++ String.intercalate ",\n" (dumpsItems (lvl + 2) (x :: xs)) ++
        "\n" ++ spacesN lvl ++ "]"
  | .obj [] => "\x7b\x7d"
  | .obj (f :: fs) =>
      "\x7b\n" ++ String.intercalate ",\n"
        ((sortByKey (dumpsFields (lvl + 2) (f :: fs))).map (·.2)) ++
        "\n" ++ spacesN lvl ++ "\x7d"
/-- Rendered array items. -/
def dumpsItems (lvl : Nat) : List JsonVal → List String
  | [] => []
  | x :: xs => (spacesN lvl ++ dumpsVal lvl x) :: dumpsItems lvl xs
/-- Rendered object fields, tagged with their keys for sorting. -/
def dumpsFields (lvl : Nat) : List (String × JsonVal) → List (String × String)
  | [] => []
  | (k, v) :: fs =>
      (k, spacesN lvl ++ "\"" ++ k ++ "\": " ++ dumpsVal lvl v) ::
        dumpsFields lvl fs
end

/-- `json.dumps(v, indent=2, sort_keys=True)`. -/
def dumps (v : JsonVal) : String := dumpsVal 0 v

/-! ## Checkpoint manager (`sfbench/utils/checkpoint.py`) -/

/-- The checkpoint record before the hash is added
(`create_checkpoint`, lines 50-56), in Python insertion order. -/
def checkpointBase (evaluationId ts : String) (completedTasks : List String)
    (results metadata : List (String × JsonVal)) :
    List (String × JsonVal) :=
  [("evaluation_id", JsonVal.str evaluationId),
   ("timestamp", JsonVal.str ts),
   ("completed_tasks", JsonVal.arr (completedTasks.map JsonVal.str)),
   ("results", JsonVal.obj results),
   ("metadata", JsonVal.obj metadata)]

/-- `CheckpointManager.create_checkpoint` (lines 50-70), parametric in
the hash function `H` (`sha256hex` in the source): the SHA-256 of the
canonical dump of the record *without* the hash field is appended as
`checkpoint_hash`.  `ts` stands for `datetime.now().isoformat()`. -/
def createCheckpointObj (H : String → String) (evaluationId ts : String)
    (completedTasks : List String)
    (results metadata : List (String × JsonVal)) :
    List (String × JsonVal) :=
  let base := checkpointBase evaluationId ts completedTasks results metadata
  let h := H (dumps (.obj base))
  base ++ [("checkpoint_hash", JsonVal.str h)]

/-- The checkpoint file text written by `create_checkpoint` (line 70). -/
def createCheckpointText (H : String → String) (evaluationId ts : String)
    (completedTasks : List String)
    (results metadata : List (String × JsonVal)) : String :=
  dumps (.obj (createCheckpointObj H evaluationId ts completedTasks
    results metadata))

/-- `CheckpointManager.load_checkpoint` (lines 99-119) on an
already-parsed checkpoint file (`json.loads` succeeded; a file that
fails to parse returns `None` through the `except` clause, line
117-119).  If a truthy `checkpoint_hash` is present, the hash is
recomputed over the canonical dump of the record without that field and
compared; on mismatch the checkpoint is rejected (`None`).  **A record
without a truthy `checkpoint_hash` field is returned unverified.** -/
def loadCheckpointParsed (H : String → String)
    (data : List (String × JsonVal)) : Option (List (String × JsonVal)) :=
  match jget data "checkpoint_hash" with
  | some v =>
      if jsonTruthy v then
        let rest := data.filter (fun p => p.1 != "checkpoint_hash")
        let calculated := H (dumps (.obj rest))
        match v with
        | .str h => if calculated = h then some data else none
        | _ => none
      else some data
  | none => some data

/-! ## Claim C8 -/

/-- The concrete checkpoint record of the C8 counterexample, before the
hash field is added. -/
def c8Base : List (String × JsonVal) :=
  checkpointBase "eval-001" "2025-01-01T00:00:00" ["task-1"] [] []

/-- The parse of the one-bit-flipped checkpoint file: flipping bit 1 of
the `'c'` in the `"checkpoint_hash"` key turns it into
`"aheckpoint_hash"`; the file still parses, to this record. -/
def c8Flipped : List (String × JsonVal) :=
  c8Base ++ [("aheckpoint_hash", .str (sha256hex (dumps (.obj c8Base))))]

/-- **C8, counterexample.**  Not every bit-flip is rejected: the file
written by `create_checkpoint` for the record `c8Base` and the
serialization of `c8Flipped` differ in exactly one character —
`'c'` versus `'a'`, one bit apart — yet the loader **accepts** the
flipped record (it parses to a record without a `checkpoint_hash` field,
so verification is skipped and the record is returned, not `None`).
(`json.loads` of the flipped text yielding `c8Flipped` is the one step
outside the embedding; the flipped key sorts to the same position, hence
the single-character difference of the serialized texts.) -/
theorem checkpoint_one_bit_flip_accepted :
    ((createCheckpointText sha256hex "eval-001" "2025-01-01T00:00:00"
        ["task-1"] [] []).length = (dumps (.obj c8Flipped)).length) ∧
    (((createCheckpointText sha256hex "eval-001" "2025-01-01T00:00:00"
        ["task-1"] [] []).data.zip
          (dumps (.obj c8Flipped)).data).filter
        (fun p => p.1 != p.2) = [('c', 'a')]) ∧
    Nat.xor 'c'.toNat 'a'.toNat = 2 ∧
    loadCheckpointParsed sha256hex c8Flipped = some c8Flipped := by
  refine ⟨?_, ?_, by decide, rfl⟩
  · set_option maxRecDepth 1000000 in decide
  · set_option maxRecDepth 1000000 in decide

/-- **C8, amended.**  `load_checkpoint` on the unmodified file returns
the stored record; and a modified file is rejected (`None`) whenever its
parse still carries a (truthy string) `checkpoint_hash` field that
differs from the recomputed hash of the other fields.  A bit-flip that
damages the `checkpoint_hash` key itself, however, produces a record
without that field, which is accepted without verification (see the
counterexample). -/
theorem loadCheckpoint_roundtrip_and_reject (H : String → String)
    (evaluationId ts : String) (tasks : List String)
    (results metadata : List (String × JsonVal)) :
    (loadCheckpointParsed H
        (createCheckpointObj H evaluationId ts tasks results metadata) =
      some (createCheckpointObj H evaluationId ts tasks results metadata)) ∧
    (∀ (data : List (String × JsonVal)) (h : String),
      jget data "checkpoint_hash" = some (.str h) → h ≠ "" →
      H (dumps (.obj (data.filter (fun p => p.1 != "checkpoint_hash")))) ≠ h →
      loadCheckpointParsed H data = none) := by
  constructor
  · unfold loadCheckpointParsed
    have hj : jget
        (createCheckpointObj H evaluationId ts tasks results metadata)
        "checkpoint_hash" =
        some (.str (H (dumps (.obj (checkpointBase evaluationId ts tasks
          results metadata))))) := rfl
    rw [hj]
    by_cases ht : jsonTruthy (.str (H (dumps (.obj (checkpointBase
        evaluationId ts tasks results metadata))))) = true
    · simp only [ht, if_true]
      have hfil : (createCheckpointObj H evaluationId ts tasks results
          metadata).filter (fun p => p.1 != "checkpoint_hash") =
          checkpointBase evaluationId ts tasks results metadata := rfl
      rw [hfil]
      rw [if_pos rfl]
    · simp only [ht, Bool.false_eq_true, if_false]
  · intro data h hget hne hh
    unfold loadCheckpointParsed
    rw [hget]
    have ht : jsonTruthy (.str h) = true := by
      simp [jsonTruthy, hne]
    simp only [ht, if_true]
    rw [if_neg hh]

/-- Witness for `loadCheckpoint_roundtrip_and_reject` with the constant
hash function and a record whose stored hash mismatches. -/
theorem loadCheckpoint_roundtrip_and_reject_witness :
    (loadCheckpointParsed (fun _ => "hh")
        (createCheckpointObj (fun _ => "hh") "e1" "t1" [] [] []) =
      some (createCheckpointObj (fun _ => "hh") "e1" "t1" [] [] [])) ∧
    (jget [("checkpoint_hash", JsonVal.str "zz")] "checkpoint_hash" =
        some (.str "zz") ∧
      "zz" ≠ "" ∧
      (fun _ => "hh")
          (dumps (.obj ([("checkpoint_hash", JsonVal.str "zz")].filter
            (fun p => p.1 != "checkpoint_hash")))) ≠ "zz" ∧
      loadCheckpointParsed (fun _ => "hh")
        [("checkpoint_hash", JsonVal.str "zz")] = none) :=
  ⟨(loadCheckpoint_roundtrip_and_reject (fun _ => "hh") "e1" "t1"
      [] [] []).1,
    rfl, by decide, by decide,
    (loadCheckpoint_roundtrip_and_reject (fun _ => "hh") "e1" "t1"
      [] [] []).2 [("checkpoint_hash", JsonVal.str "zz")] "zz" rfl
      (by decide) (by decide)⟩

/-! ## Patch cleaner (`sfbench/utils/git.py`, `_clean_patch`) -/

/-- `s.startswith(pre)`. -/
def pyStartsWith (pre s : String) : Bool := startsWithList pre.data s.data

/-- `s[1:]`. -/
def strDrop1 (s : String) : String := String.mk (s.data.drop 1)

/-- `s[0].isalnum()` on a non-empty string (`false` on empty). -/
def firstIsAlnum (s : String) : Bool :=
  match s.data with
  | c :: _ => c.isAlphanum
  | [] => false

/-- `s[0].isdigit()` on a non-empty string (`false` on empty). -/
def firstIsDigit (s : String) : Bool :=
  match s.data with
  | c :: _ => c.isDigit
  | [] => false

/-- The string contains no newline (true of every line produced by
`split('\n')`). -/
def noNL (s : String) : Bool := s.data.all (fun c => c ≠ '\n')

/-- Does the string end in a newline (`result.endswith('\n')`)? -/
def pyEndsWithNL (s : String) : Bool :=
  match s.data.getLast? with
  | some c => c = '\n'
  | none => false

/-- `'\n'.join(ls)`. -/
def joinNL : List String → String
  | [] => ""
  | [l] => l
  | l :: rest => l ++ "\n" ++ joinNL rest

/-- The mutable state of `_clean_patch`'s main loop (`git.py`, lines
309-314): the accumulated `cleaned_lines`, `in_diff`,
`last_was_hunk_header`, `diff_count` and `seen_first_diff`. -/
structure CleanState where
  cleaned : List String := []
  in_diff : Bool := false
  hdr : Bool := false
  diff_count : Nat := 0
  seen : Bool := false

/-- The main loop of `_clean_patch` (`git.py`, lines 316-422), one
iteration per input line, in source order:
markdown fences are dropped; a second `diff --git` breaks the loop;
`---`/`+++` before the first diff marker enter diff mode and fall
through; inside a diff, file headers and hunk headers are kept
(right-stripped), `+`/`-`/space lines are kept unless one of the five
malformed-line filters drops them, `\\`-lines are kept, blank lines
right after a hunk header are dropped, and other lines are kept only if
they look like diff metadata; before the first diff marker only lines
starting with `diff`/`---`/`+++`/`@@`/`index` are kept (unstripped). -/
def cleanLoop : List String → CleanState → List String
  | [], st => st.cleaned
  | line :: rest, st =>
      if pyStartsWith "```" (pyStrip line) then cleanLoop rest st
      else if pyStartsWith "diff --git" line then
        let dc := st.diff_count + 1
        if dc > 1 then st.cleaned
        else
          cleanLoop rest
            { cleaned := st.cleaned ++ [pyRstrip line],
              in_diff := true, hdr := false, diff_count := dc, seen := true }
      else
        let st := if !st.seen &&
            (pyStartsWith "---" line || pyStartsWith "+++" line) then
          { st with in_diff := true, hdr := false, seen := true }
        else st
        if st.in_diff then
          if pyStartsWith "---" line || pyStartsWith "+++" line then
            cleanLoop rest
              { st with
                  cleaned := st.cleaned ++ [pyRstrip line]
                  hdr := false }
          else if pyStartsWith "@@" line then
            cleanLoop rest
              { st with
                  cleaned := st.cleaned ++ [pyRstrip line]
                  hdr := true }
          else if pyStartsWith " " line || pyStartsWith "-" line ||
              pyStartsWith "+" line then
            let cl := pyRstrip line
            if cl = "+" || cl = "-" || cl = "+ " || cl = "- " then
              cleanLoop rest st
            else if cl.length = 1 && (cl = "+" || cl = "-") then
              cleanLoop rest st
            else if (pyStartsWith "+" cl || pyStartsWith "-" cl) &&
                (pyStrip cl).length ≤ 1 then
              cleanLoop rest st
            else if (pyStartsWith "+" cl || pyStartsWith "-" cl) &&
                cl.length > 1 &&
                (pyStrip (strDrop1 cl) = "" ||
                  ((pyStrip (strDrop1 cl)).length < 3 &&
                    !(firstIsAlnum (pyStrip (strDrop1 cl))))) then
              cleanLoop rest st
            else if (pyStartsWith "+" cl || pyStartsWith "-" cl) &&
                cl.length > 1 &&
                (pyStrip (strDrop1 cl) ≠ "" &&
                  (firstIsDigit (pyStrip (strDrop1 cl)) ||
                    pyStartsWith ". " (pyStrip (strDrop1 cl)) ||
                    pyStartsWith "- " (pyStrip (strDrop1 cl)) ||
                    pyStartsWith "* " (pyStrip (strDrop1 cl)))) then
              cleanLoop rest st
            else
              let acc := if cl ≠ "" then st.cleaned ++ [cl] else st.cleaned
              cleanLoop rest { st with cleaned := acc, hdr := false }
          else if pyStartsWith "\\" line then
            cleanLoop rest
              { st with
                  cleaned := st.cleaned ++ [pyRstrip line]
                  hdr := false }
          else
            if st.hdr && pyStrip line = "" then cleanLoop rest st
            else
              let stripped := pyStrip line
              if stripped ≠ "" &&
                  !(pyStartsWith "index" stripped ||
                    pyStartsWith "new file" stripped ||
                    pyStartsWith "deleted file" stripped ||
                    pyStartsWith "similarity" stripped ||
                    pyStartsWith "rename" stripped) &&
                  !(pyStartsWith "diff" stripped ||
                    pyStartsWith "---" stripped ||
                    pyStartsWith "+++" stripped) then
                cleanLoop rest st
              else
                cleanLoop rest
                  { st with
                      cleaned := st.cleaned ++ [pyRstrip line]
                      hdr := false }
        else
          if pyStartsWith "diff" line || pyStartsWith "---" line ||
              pyStartsWith "+++" line || pyStartsWith "@@" line ||
              pyStartsWith "index" line then
            cleanLoop rest { st with cleaned := st.cleaned ++ [line] }
          else cleanLoop rest st

/-- The final sweep of `_clean_patch` (`git.py`, lines 424-433):
standalone `+`/`-` lines (at positive index) are dropped when the
previously kept line is not diff-like. -/
def finalPassGo (i : Nat) (acc : List String) : List String → List String
  | [] => acc
  | l :: rest =>
      if (l = "+" || l = "-") && i > 0 then
        let prev := (acc.getLast?).getD ""
        if !(pyStartsWith " " prev || pyStartsWith "+" prev ||
            pyStartsWith "-" prev || pyStartsWith "@@" prev ||
            pyStartsWith "diff" prev || pyStartsWith "---" prev ||
            pyStartsWith "+++" prev) then
          finalPassGo (i + 1) acc rest
        else finalPassGo (i + 1) (acc ++ [l]) rest
      else finalPassGo (i + 1) (acc ++ [l]) rest

/-- The index of the last line starting with `@@` (the backward search
of `git.py`, lines 457-460). -/
def lastHunkIdxGo : List String → Nat → Option Nat → Option Nat
  | [], _, best => best
  | l :: rest, i, best =>
      lastHunkIdxGo rest (i + 1)
        (if pyStartsWith "@@" l then some i else best)

/-- The truncation of an incomplete patch ending (`git.py`, lines
441-477): a final hunk header drops everything from the last line
starting `@@`; a final bare file header is dropped when the line before
it is not diff content; a final blank line right after a hunk header
drops both. -/
def endTrim (rl : List String) : List String :=
  let last_line := pyStrip ((rl.getLast?).getD "")
  let second_last :=
    if rl.length > 1 then pyStrip (rl.getD (rl.length - 2) "") else ""
  if pyStartsWith "@@" last_line then
    match lastHunkIdxGo rl 0 none with
    | some i => rl.take i
    | none => rl
  else if pyStartsWith "---" last_line || pyStartsWith "+++" last_line then
    if second_last = "" ||
        !(pyStartsWith " " second_last || pyStartsWith "+" second_last ||
          pyStartsWith "-" second_last || pyStartsWith "@@" second_last) then
      rl.dropLast
    else rl
  else if last_line = "" && pyStartsWith "@@" second_last then
    rl.take (rl.length - 2)
  else rl

/-- The trailing-newline fix-up (`git.py`, lines 478-479). -/
def endNewline (result : String) : String :=
  if result ≠ "" && !(pyEndsWithNL result) then result ++ "\n" else result

/-- The final structure validation (`git.py`, lines 481-487): a diff
header, or file headers plus a hunk plus content. -/
def validOk (vlines : List String) : Bool :=
  vlines.any (fun l => pyStartsWith "diff --git" l) ||
    (vlines.any (fun l => pyStartsWith "---" l) &&
     vlines.any (fun l => pyStartsWith "+++" l) &&
     vlines.any (fun l => pyStartsWith "@@" l) &&
     vlines.any (fun l =>
       pyStartsWith " " l || pyStartsWith "+" l || pyStartsWith "-" l))

/-- `_clean_patch` from `cleaned_lines` on (`git.py`, lines 424-491):
the final standalone-operator sweep, the truncation of an incomplete
ending, the trailing-newline fix-up, and the final structure
validation, whose failure raises `PatchApplicationError` — embedded as
`none`. -/
def cleanFromLines (lines : List String) : Option String :=
  let result := joinNL (finalPassGo 0 [] (cleanLoop lines {}))
  if result ≠ "" then
    let result := endNewline (joinNL (endTrim (pySplitNL result)))
    if !(validOk (pySplitNL result)) then none else some result
  else some result

def cleanPatch (patch_diff : String) : Option String :=
  cleanFromLines (pySplitNL patch_diff)

/-! ### Lemmas about splitting and joining lines -/

/-- Rebuilding a string from its characters is the identity. -/
lemma string_mk_data (s : String) : String.mk s.data = s := rfl

/-- A string whose character list is non-empty is non-empty. -/
lemma str_ne_empty_of_data_ne {s : String} (h : s.data ≠ []) : s ≠ "" :=
  fun he => h (by rw [he])

/-- `splitCharAux` walks past characters different from the splitter,
accumulating them. -/
lemma splitCharAux_no_mem (c : Char) (u : List Char)
    (hu : ∀ a ∈ u, a ≠ c) :
    ∀ (v acc : List Char),
      splitCharAux c (u ++ v) acc = splitCharAux c v (u.reverse ++ acc) := by
  induction u with
  | nil => intro v acc; simp
  | cons x u ih =>
      intro v acc
      have hx : x ≠ c := hu x (by simp)
      have ihh := ih (fun a ha => hu a (by simp [ha])) v (x :: acc)
      rw [List.cons_append]
      rw [show splitCharAux c (x :: (u ++ v)) acc =
        splitCharAux c (u ++ v) (x :: acc) from by simp [splitCharAux, hx]]
      rw [ihh]
      simp

/-- `splitCharAux` closes the current chunk at the splitter. -/
lemma splitCharAux_cons_self (c : Char) (w acc : List Char) :
    splitCharAux c (c :: w) acc =
      String.mk acc.reverse :: splitCharAux c w [] := by
  simp [splitCharAux]

/-- `split('\n')` undoes `'\n'.join` on newline-free lines. -/
lemma pySplitNL_joinNL :
    ∀ (ls : List String), (∀ l ∈ ls, noNL l = true) → ls ≠ [] →
      pySplitNL (joinNL ls) = ls
  | [], _, hne => absurd rfl hne
  | [a], h, _ => by
      have ha : ∀ x ∈ a.data, x ≠ '\n' := by
        have := h a (by simp)
        simpa [noNL, List.all_eq_true] using this
      show splitCharAux '\n' a.data [] = [a]
      have h2 := splitCharAux_no_mem '\n' a.data ha [] []
      rw [List.append_nil] at h2
      rw [h2]
      simp [splitCharAux, string_mk_data]
  | a :: b :: rest, h, _ => by
      have ha : ∀ x ∈ a.data, x ≠ '\n' := by
        have := h a (by simp)
        simpa [noNL, List.all_eq_true] using this
      have ih := pySplitNL_joinNL (b :: rest)
        (fun x hx => h x (List.mem_cons_of_mem a hx)) (by simp)
      show splitCharAux '\n' ((a ++ "\n" ++ joinNL (b :: rest)).data) [] =
        a :: b :: rest
      have hd : (a ++ "\n" ++ joinNL (b :: rest)).data
          = a.data ++ ('\n' :: (joinNL (b :: rest)).data) := by
        simp [String.data_append]
      rw [hd, splitCharAux_no_mem '\n' a.data ha _ [],
        splitCharAux_cons_self]
      rw [show splitCharAux '\n' (joinNL (b :: rest)).data [] =
        pySplitNL (joinNL (b :: rest)) from rfl, ih]
      simp [string_mk_data]

/-- Appending an empty final line is appending a newline. -/
lemma joinNL_append_empty :
    ∀ (ls : List String), ls ≠ [] → joinNL (ls ++ [""]) = joinNL ls ++ "\n"
  | [], hne => absurd rfl hne
  | [a], _ => by
      show a ++ "\n" ++ joinNL [""] = a ++ "\n"
      show a ++ "\n" ++ "" = a ++ "\n"
      rw [String.append_empty]
  | a :: b :: rest, _ => by
      have ih := joinNL_append_empty (b :: rest) (by simp)
      show a ++ "\n" ++ joinNL ((b :: rest) ++ [""]) =
        a ++ "\n" ++ joinNL (b :: rest) ++ "\n"
      rw [ih]
      simp [String.append_assoc]

/-- The last element of a list is a member (for `getLast?`). -/
lemma mem_of_getLast_opt {α : Type} :
    ∀ (l : List α) (a : α), l.getLast? = some a → a ∈ l
  | [], _, h => by simp at h
  | [x], a, h => by
      simp at h
      simp [h]
  | x :: y :: rest, a, h => by
      rw [List.getLast?_cons_cons] at h
      exact List.mem_cons_of_mem x (mem_of_getLast_opt (y :: rest) a h)

/-- When the last line is non-empty and newline-free, the joined string
ends in one of its (non-newline) characters. -/
lemma joinNL_getLast_char :
    ∀ (ls : List String) (l : String), ls.getLast? = some l →
      (∀ x ∈ ls, noNL x = true) → l ≠ "" →
      ∃ c, (joinNL ls).data.getLast? = some c ∧ c ≠ '\n'
  | [], _, hl, _, _ => by simp at hl
  | [a], l, hl, hnl, hne => by
      simp at hl
      subst hl
      match hc : a.data.getLast? with
      | none =>
          rw [List.getLast?_eq_none_iff] at hc
          exact absurd (String.ext hc) hne
      | some c =>
          refine ⟨c, rfl, ?_⟩
          have hmem : c ∈ a.data := mem_of_getLast_opt _ _ hc
          have ha := hnl a (by simp)
          simp [noNL, List.all_eq_true] at ha
          exact ha c hmem
  | a :: b :: rest, l, hl, hnl, hne => by
      rw [List.getLast?_cons_cons] at hl
      obtain ⟨c, hc, hcne⟩ := joinNL_getLast_char (b :: rest) l hl
        (fun x hx => hnl x (List.mem_cons_of_mem a hx)) hne
      refine ⟨c, ?_, hcne⟩
      have hw : (joinNL (b :: rest)).data ≠ [] := by
        intro h0
        rw [h0] at hc
        simp at hc
      show ((a ++ "\n" ++ joinNL (b :: rest)).data).getLast? = some c
      rw [String.data_append, String.data_append,
        List.getLast?_append_of_ne_nil _ hw]
      exact hc

/-- A join whose last line is non-empty and newline-free does not end in
a newline. -/
lemma pyEndsWithNL_joinNL_false (ls : List String) (l : String)
    (hl : ls.getLast? = some l) (hnl : ∀ x ∈ ls, noNL x = true)
    (hne : l ≠ "") : pyEndsWithNL (joinNL ls) = false := by
  obtain ⟨c, hc, hcne⟩ := joinNL_getLast_char ls l hl hnl hne
  simp [pyEndsWithNL, hc, hcne]

/-- A join with a trailing empty line ends in a newline. -/
lemma pyEndsWithNL_join_trailing (ls : List String) (hne : ls ≠ []) :
    pyEndsWithNL (joinNL (ls ++ [""])) = true := by
  rw [joinNL_append_empty ls hne]
  simp [pyEndsWithNL, String.data_append, List.getLast?_concat]

/-! ### The idempotence family: standard well-formed diffs -/

/-- The four-line diff header used by the idempotence theorem. -/
def stdHeader : List String :=
  ["diff --git a/A b/B", "--- a/A", "+++ b/B", "@@ -1 +1 @@"]

/-- A standard well-formed diff: the four header lines followed by the
body lines, newline-joined (no trailing newline). -/
def mkStdDiff (body : List String) : String := joinNL (stdHeader ++ body)

/-- A well-behaved diff body line: newline-free, right-stripped, starting
with ` `, `+` or `-`, not shaped like a header or fence, and — for
`+`/`-` lines — carrying a payload that none of `_clean_patch`'s
malformed-line filters drops.  Stripping it also does not produce a
header shape, so the end-truncation leaves it alone. -/
def GoodBodyLine (l : String) : Prop :=
  noNL l = true ∧
  pyRstrip l = l ∧
  l ≠ "" ∧ l ≠ "+" ∧ l ≠ "-" ∧ l ≠ "+ " ∧ l ≠ "- " ∧
  pyStartsWith "```" (pyStrip l) = false ∧
  pyStartsWith "diff --git" l = false ∧
  pyStartsWith "---" l = false ∧
  pyStartsWith "+++" l = false ∧
  pyStartsWith "@@" l = false ∧
  (pyStartsWith " " l || pyStartsWith "-" l || pyStartsWith "+" l) = true ∧
  pyStrip l ≠ "" ∧
  pyStartsWith "@@" (pyStrip l) = false ∧
  pyStartsWith "---" (pyStrip l) = false ∧
  pyStartsWith "+++" (pyStrip l) = false ∧
  ((pyStartsWith "+" l || pyStartsWith "-" l) = false ∨
    (1 < (pyStrip l).length ∧ 1 < l.length ∧
     pyStrip (strDrop1 l) ≠ "" ∧
     ¬((pyStrip (strDrop1 l)).length < 3 ∧
       firstIsAlnum (pyStrip (strDrop1 l)) = false) ∧
     firstIsDigit (pyStrip (strDrop1 l)) = false ∧
     pyStartsWith ". " (pyStrip (strDrop1 l)) = false ∧
     pyStartsWith "- " (pyStrip (strDrop1 l)) = false ∧
     pyStartsWith "* " (pyStrip (strDrop1 l)) = false))

instance goodBodyLineDecidable (l : String) : Decidable (GoodBodyLine l) := by
  unfold GoodBodyLine
  infer_instance

/-- The main loop keeps the standard header verbatim and enters diff
mode with `last_was_hunk_header` set. -/
lemma cleanLoop_stdHeader (rest : List String) :
    cleanLoop (stdHeader ++ rest) {} =
      cleanLoop rest ⟨stdHeader, true, true, 1, true⟩ := rfl

/-- Inside a diff, the main loop keeps every well-behaved body line
verbatim and clears `last_was_hunk_header`. -/
lemma cleanLoop_good :
    ∀ (body : List String), (∀ l ∈ body, GoodBodyLine l) →
      ∀ (suffix acc : List String) (hdrB : Bool),
        cleanLoop (body ++ suffix) ⟨acc, true, hdrB, 1, true⟩ =
          cleanLoop suffix
            ⟨acc ++ body, true, if body.isEmpty then hdrB else false, 1,
              true⟩ := by
  intro body
  induction body with
  | nil => intro _ suffix acc hdrB; simp
  | cons l body ih =>
      intro hg suffix acc hdrB
      obtain ⟨h1, h2, h3, h4, h5, h6, h7, h8, h9, h10, h11, h12, h13, h14,
        h15, h16, h17, h18⟩ := hg l (by simp)
      have hgrest : ∀ x ∈ body, GoodBodyLine x :=
        fun x hx => hg x (by simp [hx])
      rw [List.cons_append]
      simp only [cleanLoop]
      simp only [h2, h3, h4, h5, h6, h7, h8, h9, h10, h11, h12, h13]
      rcases h18 with hpm | ⟨hb1, hb2, hb3, hb4, hb5, hb6, hb7, hb8⟩
      · simp only [hpm]
        simp [h3, ih hgrest suffix (acc ++ [l]) false]
      · have hc3 : ¬((pyStrip l).length ≤ 1) := by omega
        have hc4 : (decide ((pyStrip (strDrop1 l)).length < 3) &&
            !(firstIsAlnum (pyStrip (strDrop1 l)))) = false := by
          by_cases hlt : (pyStrip (strDrop1 l)).length < 3
          · cases hA : firstIsAlnum (pyStrip (strDrop1 l)) with
            | false => exact absurd ⟨hlt, hA⟩ hb4
            | true => simp [hA]
          · simp [hlt]
        simp [hc3, hc4, hb3, hb5, hb6, hb7, hb8, h3,
          ih hgrest suffix (acc ++ [l]) false]

/-- Processing the trailing empty line produced by a final newline: with
`last_was_hunk_header` clear it is kept (as the empty string). -/
lemma cleanLoop_empty_line (acc : List String) :
    cleanLoop [""] ⟨acc, true, false, 1, true⟩ = acc ++ [""] := rfl

/-- The final sweep keeps lists without standalone `+`/`-` lines. -/
lemma finalPassGo_id :
    ∀ (ls : List String), (∀ l ∈ ls, l ≠ "+" ∧ l ≠ "-") →
      ∀ (i : Nat) (acc : List String), finalPassGo i acc ls = acc ++ ls := by
  intro ls
  induction ls with
  | nil => intro _ i acc; simp [finalPassGo]
  | cons l rest ih =>
      intro h i acc
      obtain ⟨hp, hm⟩ := h l (by simp)
      have hr := ih (fun x hx => h x (by simp [hx])) (i + 1) (acc ++ [l])
      simp only [finalPassGo]
      simp [hp, hm, hr]

/-- A join that starts with the standard header is non-empty. -/
lemma joinNL_stdHeader_ne (tail : List String) :
    joinNL (stdHeader ++ tail) ≠ "" := by
  apply str_ne_empty_of_data_ne
  show ((("diff --git a/A b/B" : String) ++ "\n" ++
    joinNL ("--- a/A" :: "+++ b/B" :: "@@ -1 +1 @@" :: tail)).data) ≠ []
  rw [String.data_append, String.data_append]
  intro h
  simp [List.append_eq_nil] at h

/-- The last element of header-plus-body is the body's last line. -/
lemma getLast_stdHeader_body (body : List String) (hne : body ≠ []) :
    (stdHeader ++ body).getLast? = some (body.getLast hne) := by
  rw [List.getLast?_append_of_ne_nil _ hne, List.getLast?_eq_getLast _ hne]

/-- All lines of header-plus-body are newline-free. -/
lemma noNL_stdHeader_body (body : List String)
    (hg : ∀ l ∈ body, GoodBodyLine l) :
    ∀ l ∈ stdHeader ++ body, noNL l = true := by
  intro l hl
  rcases List.mem_append.1 hl with h | h
  · simp [stdHeader] at h
    rcases h with rfl | rfl | rfl | rfl <;> decide
  · exact (hg l h).1

/-- No line of header-plus-body is a standalone `+` or `-`. -/
lemma no_standalone_stdHeader_body (body : List String)
    (hg : ∀ l ∈ body, GoodBodyLine l) :
    ∀ l ∈ stdHeader ++ body, l ≠ "+" ∧ l ≠ "-" := by
  intro l hl
  rcases List.mem_append.1 hl with h | h
  · simp [stdHeader] at h
    rcases h with rfl | rfl | rfl | rfl <;> exact ⟨by decide, by decide⟩
  · exact ⟨(hg l h).2.2.2.1, (hg l h).2.2.2.2.1⟩

/-- The end-truncation leaves header-plus-good-body alone: the last line
strips to non-empty content that is not header-shaped. -/
lemma endTrim_good (body : List String) (hne : body ≠ [])
    (hg : ∀ l ∈ body, GoodBodyLine l) :
    endTrim (stdHeader ++ body) = stdHeader ++ body := by
  have hmem : body.getLast hne ∈ body := List.getLast_mem hne
  obtain ⟨-, -, -, -, -, -, -, -, -, -, -, -, -, g14, g15, g16, g17, -⟩ :=
    hg _ hmem
  simp only [endTrim, getLast_stdHeader_body body hne, Option.getD_some]
  simp [g14, g15, g16, g17]

/-- The end-truncation also leaves header-plus-good-body-plus-final-empty
line alone: the (empty) last line is not header-shaped, and the line
before it does not strip to a hunk header. -/
lemma endTrim_trailing_empty (body : List String) (hne : body ≠ [])
    (hg : ∀ l ∈ body, GoodBodyLine l) :
    endTrim (stdHeader ++ body ++ [""]) = stdHeader ++ body ++ [""] := by
  have hmem : body.getLast hne ∈ body := List.getLast_mem hne
  obtain ⟨-, -, -, -, -, -, -, -, -, -, -, -, -, -, g15, -, -, -⟩ :=
    hg _ hmem
  have hlast : (stdHeader ++ body ++ [""]).getLast? = some "" :=
    List.getLast?_concat _
  have hlen : (stdHeader ++ body ++ [""]).length = body.length + 5 := by
    simp [stdHeader]
  have hgt : 1 < (stdHeader ++ body ++ [""]).length := by omega
  have hidx : (stdHeader ++ body ++ [""]).getD
      ((stdHeader ++ body ++ [""]).length - 2) "" = body.getLast hne := by
    rw [List.getD_eq_getElem?_getD]
    have hlt : ((stdHeader ++ body) ++ [""]).length - 2 <
        (stdHeader ++ body).length := by
      simp [stdHeader]
    rw [List.getElem?_append_left hlt]
    have hixeq : ((stdHeader ++ body) ++ [""]).length - 2 =
        (stdHeader ++ body).length - 1 := by
      simp [stdHeader]
    rw [hixeq, ← List.getLast?_eq_getElem?,
      getLast_stdHeader_body body hne]
    simp
  have e0 : pyStrip "" = "" := by decide
  have e1 : pyStartsWith "@@" "" = false := by decide
  have e2 : pyStartsWith "---" "" = false := by decide
  have e3 : pyStartsWith "+++" "" = false := by decide
  have hsl : (if (stdHeader ++ body ++ [""]).length > 1 then
      pyStrip ((stdHeader ++ body ++ [""]).getD
        ((stdHeader ++ body ++ [""]).length - 2) "") else "")
      = pyStrip (body.getLast hne) := by
    rw [if_pos hgt, hidx]
  simp only [endTrim, hlast, Option.getD_some, hsl, e0, e1, e2, e3, g15]
  simp

/-- Any line list led by the standard header passes the final structure
validation: its first line is a diff header. -/
lemma validOk_stdHeader (tail : List String) :
    validOk (stdHeader ++ tail) = true := by
  have h : pyStartsWith "diff --git" "diff --git a/A b/B" = true := by decide
  simp [validOk, stdHeader, h]

/-- All lines of header-plus-body-plus-trailing-empty are newline-free. -/
lemma noNL_stdHeader_body_trailing (body : List String)
    (hg : ∀ l ∈ body, GoodBodyLine l) :
    ∀ l ∈ (stdHeader ++ body) ++ [""], noNL l = true := by
  intro l hl
  rcases List.mem_append.1 hl with h | h
  · exact noNL_stdHeader_body body hg l h
  · simp at h; subst h; decide

/-- `_clean_patch` maps the split standard diff (without trailing
newline) to the same text with a trailing newline appended. -/
lemma cleanFromLines_std (body : List String) (hne : body ≠ [])
    (hg : ∀ l ∈ body, GoodBodyLine l) :
    cleanFromLines (stdHeader ++ body) =
      some (joinNL (stdHeader ++ body) ++ "\n") := by
  have hnlAll := noNL_stdHeader_body body hg
  have hhne : stdHeader ++ body ≠ [] := by simp [stdHeader]
  have hcl : cleanLoop (stdHeader ++ body) {} = stdHeader ++ body := by
    rw [cleanLoop_stdHeader body]
    have h := cleanLoop_good body hg [] stdHeader true
    rw [List.append_nil] at h
    rw [h]
    rfl
  have hfp : finalPassGo 0 [] (stdHeader ++ body) = stdHeader ++ body := by
    have h := finalPassGo_id (stdHeader ++ body)
      (no_standalone_stdHeader_body body hg) 0 []
    simpa using h
  have hRne : joinNL (stdHeader ++ body) ≠ "" := joinNL_stdHeader_ne body
  have hsplitR : pySplitNL (joinNL (stdHeader ++ body)) = stdHeader ++ body :=
    pySplitNL_joinNL _ hnlAll hhne
  have hlastb := getLast_stdHeader_body body hne
  have hlbne : body.getLast hne ≠ "" := (hg _ (List.getLast_mem hne)).2.2.1
  have hEnds : pyEndsWithNL (joinNL (stdHeader ++ body)) = false :=
    pyEndsWithNL_joinNL_false _ _ hlastb hnlAll hlbne
  have hNL : endNewline (joinNL (stdHeader ++ body)) =
      joinNL (stdHeader ++ body) ++ "\n" := by
    simp [endNewline, hRne, hEnds]
  have htrim := endTrim_good body hne hg
  have hsplit2 : pySplitNL (joinNL (stdHeader ++ body) ++ "\n") =
      (stdHeader ++ body) ++ [""] := by
    rw [← joinNL_append_empty _ hhne]
    exact pySplitNL_joinNL _ (noNL_stdHeader_body_trailing body hg) (by simp)
  have hvalid : validOk ((stdHeader ++ body) ++ [""]) = true := by
    rw [List.append_assoc]
    exact validOk_stdHeader _
  simp only [cleanFromLines, hcl, hfp, hsplitR, htrim, hNL, hsplit2, hvalid]
  simp [hRne]

/-- `_clean_patch` maps the split standard diff with trailing newline to
itself. -/
lemma cleanFromLines_std_trailing (body : List String) (hne : body ≠ [])
    (hg : ∀ l ∈ body, GoodBodyLine l) :
    cleanFromLines (stdHeader ++ (body ++ [""])) =
      some (joinNL (stdHeader ++ body) ++ "\n") := by
  have hhne : stdHeader ++ body ≠ [] := by simp [stdHeader]
  have hbne : (if body.isEmpty then true else false) = false := by
    cases body with
    | nil => exact absurd rfl hne
    | cons a b => rfl
  have hcl : cleanLoop (stdHeader ++ (body ++ [""])) {} =
      stdHeader ++ (body ++ [""]) := by
    rw [cleanLoop_stdHeader (body ++ [""])]
    have h := cleanLoop_good body hg [""] stdHeader true
    rw [hbne] at h
    rw [h, cleanLoop_empty_line, List.append_assoc]
  have hfp2 : finalPassGo 0 [] (stdHeader ++ (body ++ [""])) =
      stdHeader ++ (body ++ [""]) := by
    have hm : ∀ l ∈ stdHeader ++ (body ++ [""]), l ≠ "+" ∧ l ≠ "-" := by
      intro l hl
      rcases List.mem_append.1 hl with h | h
      · exact no_standalone_stdHeader_body body hg l
          (List.mem_append_left _ h)
      · rcases List.mem_append.1 h with h2 | h2
        · exact no_standalone_stdHeader_body body hg l
            (List.mem_append_right _ h2)
        · simp at h2; subst h2; exact ⟨by decide, by decide⟩
    simpa using finalPassGo_id _ hm 0 []
  have hj2 : joinNL (stdHeader ++ (body ++ [""])) =
      joinNL (stdHeader ++ body) ++ "\n" := by
    have h := joinNL_append_empty _ hhne
    rwa [List.append_assoc] at h
  have hRne2 : joinNL (stdHeader ++ (body ++ [""])) ≠ "" :=
    joinNL_stdHeader_ne _
  have hnl2 : ∀ l ∈ stdHeader ++ (body ++ [""]), noNL l = true := by
    have h := noNL_stdHeader_body_trailing body hg
    rwa [List.append_assoc] at h
  have hsplit2 : pySplitNL (joinNL (stdHeader ++ (body ++ [""]))) =
      stdHeader ++ (body ++ [""]) :=
    pySplitNL_joinNL _ hnl2 (by simp [stdHeader])
  have htrim2 : endTrim (stdHeader ++ (body ++ [""])) =
      stdHeader ++ (body ++ [""]) := by
    have h := endTrim_trailing_empty body hne hg
    rwa [List.append_assoc] at h
  have hEnds2 : pyEndsWithNL (joinNL (stdHeader ++ (body ++ [""]))) = true := by
    have h := pyEndsWithNL_join_trailing _ hhne
    rwa [List.append_assoc] at h
  have hNL2 : endNewline (joinNL (stdHeader ++ (body ++ [""]))) =
      joinNL (stdHeader ++ (body ++ [""])) := by
    simp [endNewline, hEnds2]
  have hvalid2 : validOk (stdHeader ++ (body ++ [""])) = true :=
    validOk_stdHeader _
  simp only [cleanFromLines, hcl, hfp2, hsplit2, htrim2, hNL2, hvalid2]
  simp [hRne2, hj2]

/-- **C9, counterexample.**  `_clean_patch` is not idempotent on inputs
on which it is defined: on a diff whose hunks are all header-only, the
first pass truncates the trailing hunk header and appends a newline,
creating a new trailing hunk header (followed by an empty line) that
the second pass truncates again — the cleaned output changes when
cleaned once more. -/
theorem cleanPatch_not_idempotent :
    cleanPatch "diff --git a/f b/f\n@@ -1 +1 @@\n@@ -2 +2 @@" =
      some "diff --git a/f b/f\n@@ -1 +1 @@\n" ∧
    cleanPatch "diff --git a/f b/f\n@@ -1 +1 @@\n" =
      some "diff --git a/f b/f\n" ∧
    ("diff --git a/f b/f\n" : String) ≠ "diff --git a/f b/f\n@@ -1 +1 @@\n" :=
  ⟨rfl, rfl, by decide⟩

/-- **C9, amended.**  On a standard well-formed diff — a `diff --git`
header, `---`/`+++` file headers, one hunk header, and a non-empty body
of well-behaved content lines (newline-free, right-stripped, starting
with a space, `+` or `-`, not header- or fence-shaped even after
stripping, and whose `+`/`-` payloads none of the malformed-line
filters drops) — `_clean_patch` only appends the final newline on the
first pass, and cleaning its output again returns it unchanged:
`_clean_patch` is idempotent on this family, and the cleaned text keeps
every line of the input. -/
theorem cleanPatch_idempotent_on_standard (body : List String)
    (hne : body ≠ []) (hg : ∀ l ∈ body, GoodBodyLine l) :
    cleanPatch (mkStdDiff body) = some (mkStdDiff body ++ "\n") ∧
    cleanPatch (mkStdDiff body ++ "\n") = some (mkStdDiff body ++ "\n") := by
  have hnlAll := noNL_stdHeader_body body hg
  have hhne : stdHeader ++ body ≠ [] := by simp [stdHeader]
  constructor
  · show cleanFromLines (pySplitNL (joinNL (stdHeader ++ body))) = _
    rw [pySplitNL_joinNL _ hnlAll hhne]
    exact cleanFromLines_std body hne hg
  · have h1 : pySplitNL (mkStdDiff body ++ "\n") =
        stdHeader ++ (body ++ [""]) := by
      show pySplitNL (joinNL (stdHeader ++ body) ++ "\n") = _
      rw [← joinNL_append_empty _ hhne,
        pySplitNL_joinNL _ (noNL_stdHeader_body_trailing body hg) (by simp),
        List.append_assoc]
    show cleanFromLines (pySplitNL (mkStdDiff body ++ "\n")) = _
    rw [h1]
    exact cleanFromLines_std_trailing body hne hg

/-- Witness: a concrete standard diff body satisfying the hypotheses of
the idempotence theorem. -/
theorem cleanPatch_idempotent_on_standard_witness :
    ((["-old line", "+new line", " context"] : List String) ≠ [] ∧
      ∀ l ∈ (["-old line", "+new line", " context"] : List String),
        GoodBodyLine l) ∧
    (cleanPatch (mkStdDiff ["-old line", "+new line", " context"]) =
        some (mkStdDiff ["-old line", "+new line", " context"] ++ "\n") ∧
      cleanPatch (mkStdDiff ["-old line", "+new line", " context"] ++ "\n") =
        some (mkStdDiff ["-old line", "+new line", " context"] ++ "\n")) :=
  ⟨⟨by decide, by decide⟩,
    cleanPatch_idempotent_on_standard _ (by decide) (by decide)⟩

end SFBench
